import Mathlib

/-!
Shallow embedding of the polymarket-mcp trading gateway, covering:
order submission (src/services/order.service.ts), the atomic batch route
(src/routes/orders.ts), and the wallet provisioning state machine
(src/services/wallet.service.ts).  External services (CLOB order book,
gasless relayer, chain reads) are modelled as oracles supplying the value
each remote call would return; database writes are modelled as pure record
updates and are assumed to succeed.  JavaScript string truthiness and the
substring classification of error messages are modelled explicitly.
-/

namespace PolymarketMCP

/-- JS truthiness of an optional string: null/undefined and the empty
string are falsy. -/
def jsTruthy : Option String → Bool
  | none => false
  | some s => !(s == "")

/-- JS `a || b` on optional strings: returns `a` when truthy, else `b`. -/
def jsOrStr (a b : Option String) : Option String :=
  if jsTruthy a then a else b

/-- JS falsiness of an optional number: undefined and 0 are falsy. -/
def jsFalsyNum : Option Int → Bool
  | none => true
  | some n => n == 0

/-- Decidable substring search on char lists, mirroring
`String.prototype.includes`. -/
def listInfix (pat : List Char) : List Char → Bool
  | [] => pat.isEmpty
  | c :: t => pat.isPrefixOf (c :: t) || listInfix pat t

/-- `strContains s pat` models JS `s.includes(pat)`. -/
def strContains (s pat : String) : Bool :=
  listInfix pat.toList s.toList

/-- Hex digit test for the `/0x[a-fA-F0-9]{40}/` address regex. -/
def isHexDigitChar (c : Char) : Bool :=
  c.isDigit || (Char.ofNat 97 ≤ c && c ≤ Char.ofNat 102) ||
    (Char.ofNat 65 ≤ c && c ≤ Char.ofNat 70)

/-- Attempt to match `0x` followed by 40 hex digits at the head of a char
list (one position of the JS regex scan). -/
def ethAddrAt : List Char → Option String
  | '0' :: 'x' :: rest =>
    if rest.length ≥ 40 && (rest.take 40).all isHexDigitChar then
      some (String.mk ('0' :: 'x' :: rest.take 40))
    else none
  | _ => none

/-- Scan helper for `extractEthAddress`. -/
def extractEthAddressAux : List Char → Option String
  | [] => none
  | c :: t =>
    match ethAddrAt (c :: t) with
    | some a => some a
    | none => extractEthAddressAux t

/-- Models `errorMsg.match(/0x[a-fA-F0-9]{40}/)`: the first 40-hex-digit
0x-address occurring in the string, if any. -/
def extractEthAddress (s : String) : Option String :=
  extractEthAddressAux s.toList

/-- The standard base64 alphabet used by Node Buffer encoding. -/
def b64Alphabet : List Char :=
  "ABCDEFGHIJKLMNOPQRSTUVWXYZabcdefghijklmnopqrstuvwxyz0123456789+/".toList

/-- Index of a char in the base64 alphabet (also accepting the URL-safe
variants accepted by Node), none for padding and other chars. -/
def b64CharVal (c : Char) : Option Nat :=
  match b64Alphabet.indexOf? c with
  | some i => some i
  | none => if c = '-' then some 62 else if c = '_' then some 63 else none

/-- Decode groups of base64 symbol values into bytes: 4 symbols give 3
bytes, a trailing 3 give 2, a trailing 2 give 1, a lone symbol nothing —
Node Buffer semantics, which never raise. -/
def b64DecodeGroups : List Nat → List Nat
  | a :: b :: c :: d :: rest =>
    (a * 4 + b / 16) :: (b % 16 * 16 + c / 4) :: (c % 4 * 64 + d) ::
      b64DecodeGroups rest
  | [a, b, c] => [a * 4 + b / 16, b % 16 * 16 + c / 4]
  | [a, b] => [a * 4 + b / 16]
  | _ => []

/-- Node `Buffer.from(s, 'base64')`: skips padding and unrecognised
characters, then decodes; total — it never throws on a string input. -/
def nodeB64Decode (s : String) : List Nat :=
  b64DecodeGroups (s.toList.filterMap b64CharVal)

/-- Since Node base64 decoding of a string never throws, the try/catch
around it in the source succeeds on every input; the `none` branch of this
option is the unreachable catch arm. -/
def bufferFromBase64 (s : String) : Option (List Nat) :=
  some (nodeB64Decode s)

/-- Character of a 6-bit value in the base64 alphabet. -/
def b64Char (n : Nat) : Char := b64Alphabet.getD n 'A'

/-- Standard (padded) base64 encoding of a byte list, modelling
`decoded.toString('base64')`. -/
def b64Encode : List Nat → String
  | b1 :: b2 :: b3 :: rest =>
    String.mk [b64Char (b1 / 4), b64Char (b1 % 4 * 16 + b2 / 16),
      b64Char (b2 % 16 * 4 + b3 / 64), b64Char (b3 % 64)] ++ b64Encode rest
  | [b1, b2] =>
    String.mk [b64Char (b1 / 4), b64Char (b1 % 4 * 16 + b2 / 16),
      b64Char (b2 % 16 * 4), '=']
  | [b1] => String.mk [b64Char (b1 / 4), b64Char (b1 % 4 * 16), '=', '=']
  | [] => ""

/-- Order lifecycle statuses of the local order record (prisma enum
OrderStatus). -/
inductive OrderStatus
  | PENDING | SUBMITTING | LIVE | MATCHED | FILLED | CANCELLED | FAILED
deriving DecidableEq

/-- Printable name of an order status, for embedded error messages. -/
def OrderStatus.toStr : OrderStatus → String
  | .PENDING => "PENDING"
  | .SUBMITTING => "SUBMITTING"
  | .LIVE => "LIVE"
  | .MATCHED => "MATCHED"
  | .FILLED => "FILLED"
  | .CANCELLED => "CANCELLED"
  | .FAILED => "FAILED"

/-- Account lifecycle statuses (prisma enum UserStatus); the spec calls
SAFE_DEPLOYING/SAFE_DEPLOYED simply DEPLOYING/DEPLOYED. -/
inductive UserStatus
  | CREATED | SAFE_DEPLOYING | SAFE_DEPLOYED | SETTING_UP | READY
deriving DecidableEq

/-- Forward position of a status in the lifecycle. -/
def UserStatus.rank : UserStatus → Nat
  | .CREATED => 0
  | .SAFE_DEPLOYING => 1
  | .SAFE_DEPLOYED => 2
  | .SETTING_UP => 3
  | .READY => 4

/-- The transition relation asserted by the spec: forward moves plus the
two failure-revert edges DEPLOYING→CREATED and SETTING_UP→DEPLOYED. -/
def allowedTransition (a b : UserStatus) : Bool :=
  a.rank ≤ b.rank ||
    (a == .SAFE_DEPLOYING && b == .CREATED) ||
    (a == .SETTING_UP && b == .SAFE_DEPLOYED)

/-- Shape of a CLOB postOrder response body as consumed by the gateway:
only the fields the source reads.  The remote service may report an error
inside a success-shaped payload. -/
structure ClobPostResponse where
  error : Option String
  message : Option String
  status : Option Nat
  orderID : Option String
  orderId : Option String
  id : Option String
deriving DecidableEq

/-- `response?.error || response?.status === 400 || response?.status ===
422`: the check both call sites apply to a returned postOrder body. -/
def postOrderErrorShaped (r : ClobPostResponse) : Bool :=
  jsTruthy r.error || r.status == some 400 || r.status == some 422

/-- `response.error || response.message || 'Order rejected'`: the message
of the synthetic error thrown for an error-shaped response. -/
def postOrderErrorMsg (r : ClobPostResponse) : String :=
  (jsOrStr r.error (jsOrStr r.message (some "Order rejected"))).getD
    "Order rejected"

/-- `response.orderID || response.orderId || response.id || null`: the
remote order id extraction, following JS truthiness (an empty string
counts as absent). -/
def extractClobOrderId (r : ClobPostResponse) : Option String :=
  jsOrStr r.orderID (jsOrStr r.orderId (jsOrStr r.id none))

/-! ## OrderService.createOrder (src/services/order.service.ts) -/

/-- Accepted order kinds of CreateOrderParams. -/
inductive OrderKind
  | LIMIT | MARKET | GTC | GTD | FOK | FAK
deriving DecidableEq

/-- `mapOrderType`: map gateway order kinds to CLOB order types. -/
def mapOrderType : OrderKind → String
  | .GTC => "GTC"
  | .LIMIT => "GTC"
  | .GTD => "GTD"
  | .FOK => "FOK"
  | .FAK => "FAK"
  | .MARKET => "FOK"

/-- Input of `OrderService.createOrder`. -/
structure CreateOrderParams where
  conditionId : String
  tokenId : String
  side : String
  price : ℚ
  size : ℚ
  orderType : OrderKind
  expiration : Option Int
deriving DecidableEq

/-- The slice of the prisma user record read by the order gateway. -/
structure UserRec where
  status : UserStatus
  safeAddress : Option String
deriving DecidableEq

/-- The market neg-risk routing cache (`marketNegRiskCache`), keyed by
condition id. -/
def NegRiskCache := String → Option Bool

/-- Point update of the routing cache (`marketNegRiskCache.set`). -/
def cacheSet (c : NegRiskCache) (k : String) (v : Bool) : NegRiskCache :=
  fun x => if x = k then some v else c x

/-- `isNegRiskMarket`: cached classification lookup.  `detect` is the
oracle for the remote market lookup (CLOB endpoint, then Gamma fallback);
`none` means neither source answered, in which case the code defaults to
false.  Every miss writes the cache. -/
def isNegRiskMarket (cache : NegRiskCache) (conditionId : String)
    (detect : Option Bool) : Bool × NegRiskCache :=
  match cache conditionId with
  | some v => (v, cache)
  | none =>
    match detect with
    | some v => (v, cacheSet cache conditionId v)
    | none => (false, cacheSet cache conditionId false)

/-- Outcome of one `attemptOrder` call under a given negRisk routing flag:
either postOrder returned a body, or client.createOrder/postOrder threw. -/
inductive AttemptOutcome
  | resp (r : ClobPostResponse)
  | exn (msg : String)

/-- `attemptOrder`: submits under the given routing flag and converts an
error-shaped response body into a thrown error, so the retry
classification in the caller sees it (source lines 272-307). -/
def attemptOrder (attempt : Bool → AttemptOutcome) (negRiskFlag : Bool) :
    Except String ClobPostResponse :=
  match attempt negRiskFlag with
  | .exn m => .error m
  | .resp r =>
    if postOrderErrorShaped r then .error (postOrderErrorMsg r) else .ok r

/-- Classification: corrupted signing material (source line 327). -/
def isCorruptedCredsErr (m : String) : Bool :=
  strContains m "Invalid character" || strContains m "base64"

/-- Classification: invalid signature (source line 330). -/
def isInvalidSignatureErr (m : String) : Bool :=
  strContains m "INVALID_SIGNATURE"

/-- Classification: tick size violation (source line 333). -/
def isTickSizeErr (m : String) : Bool :=
  strContains m "MIN_TICK_SIZE" || strContains m "tick"

/-- Classification: balance/allowance-class rejection (source line 339). -/
def isBalanceAllowanceErr (m : String) : Bool :=
  strContains m "balance" || strContains m "allowance" ||
    strContains m "INSUFFICIENT" || strContains m "not enough"

/-- Final state of the local order record written by createOrder. -/
structure OrderRecord where
  clobOrderId : Option String
  status : OrderStatus
  statusMessage : Option String
deriving DecidableEq

/-- Result of the embedded createOrder: the final order record (none when
validation failed before the record was created), the negRisk flags of the
remote submission attempts in order, the response that passed the
error-shape check (if any), the routing cache after the call, and the
returned value or raised error. -/
structure CreateOrderResult where
  record : Option OrderRecord
  attempts : List Bool
  acceptedResponse : Option ClobPostResponse
  cache : NegRiskCache
  result : Except String String

/-- Failure exit taken after the order record exists: the catch block sets
the record FAILED with the error message and rethrows (source lines
429-452). -/
def createOrderFailed (msg : String) (atts : List Bool)
    (cache : NegRiskCache) : CreateOrderResult :=
  { record := some
      { clobOrderId := none, status := .FAILED, statusMessage := some msg }
    attempts := atts
    acceptedResponse := none
    cache := cache
    result := .error msg }

/-- Completion with an accepted response: mark LIVE only when a truthy
remote order id is present, else record FAILED and raise (source lines
374-428). -/
def createOrderFinish (r : ClobPostResponse) (atts : List Bool)
    (cache : NegRiskCache) : CreateOrderResult :=
  match extractClobOrderId r with
  | none =>
    { record := some
        { clobOrderId := none, status := .FAILED
          statusMessage := some
            "Order submission failed - no order ID received from Polymarket" }
      attempts := atts
      acceptedResponse := some r
      cache := cache
      result := .error
        "Order submission failed - no order ID received from Polymarket" }
  | some cid =>
    { record := some
        { clobOrderId := some cid, status := .LIVE, statusMessage := none }
      attempts := atts
      acceptedResponse := some r
      cache := cache
      result := .ok cid }

/-- The submission phase of createOrder, entered after validation and
after the order record was created (source lines 228-452): detect the
routing variant, attempt, classify a rejection, and retry once under the
opposite routing for balance-class rejections only. -/
def createOrderSubmit (p : CreateOrderParams) (cache : NegRiskCache)
    (detect : Option Bool) (attempt : Bool → AttemptOutcome) :
    CreateOrderResult :=
  let det := isNegRiskMarket cache p.conditionId detect
  let isNegRisk := det.1
  let cache1 := det.2
  match attemptOrder attempt isNegRisk with
  | .ok r => createOrderFinish r [isNegRisk] cache1
  | .error m1 =>
    if isCorruptedCredsErr m1 then
      createOrderFailed
        ("Order signing failed (credentials may be corrupted): " ++ m1 ++
          ". Try calling reset_credentials.") [isNegRisk] cache1
    else if isInvalidSignatureErr m1 then
      createOrderFailed
        "Invalid signature - credentials may be corrupted. Try reset_credentials."
        [isNegRisk] cache1
    else if isTickSizeErr m1 then
      createOrderFailed
        ("Price does not meet minimum tick size requirements: " ++ m1)
        [isNegRisk] cache1
    else if isBalanceAllowanceErr m1 then
      match attemptOrder attempt (!isNegRisk) with
      | .ok r =>
        createOrderFinish r [isNegRisk, !isNegRisk]
          (cacheSet cache1 p.conditionId (!isNegRisk))
      | .error _ =>
        createOrderFailed
          ("Order failed with both exchange contracts. Original error: " ++
            m1 ++
            ". This usually means insufficient USDC balance in your Safe wallet. Please ensure you have enough USDC deposited.")
          [isNegRisk, !isNegRisk] cache1
    else
      createOrderFailed ("Polymarket rejected order: " ++ m1) [isNegRisk]
        cache1

/-- Validation-failure exit: taken before the order record is created and
before any remote call (source lines 175-226). -/
def createOrderRejected (msg : String) (cache : NegRiskCache) :
    CreateOrderResult :=
  { record := none, attempts := [], acceptedResponse := none
    cache := cache, result := .error msg }

/-- `OrderService.createOrder` (source lines 175-453): validation, user
readiness checks, record creation, then submission with speculative
routing retry. -/
def createOrder (p : CreateOrderParams) (user : UserRec)
    (cache : NegRiskCache) (detect : Option Bool)
    (attempt : Bool → AttemptOutcome) : CreateOrderResult :=
  if p.price < mkRat 1 100 ∨ p.price > mkRat 99 100 then
    createOrderRejected "Price must be between 0.01 and 0.99" cache
  else if p.size ≤ 0 then
    createOrderRejected "Size must be positive" cache
  else if p.orderType = .GTD ∧ jsFalsyNum p.expiration then
    createOrderRejected "GTD orders require an expiration timestamp" cache
  else if user.status ≠ .READY then
    createOrderRejected "User not ready for trading" cache
  else
    match user.safeAddress with
    | none => createOrderRejected "Safe wallet not deployed" cache
    | some _ => createOrderSubmit p cache detect attempt

/-! ## OrderService.cancelOrder (src/services/order.service.ts 556-708) -/

/-- The slice of a stored order record that cancelOrder reads/writes. -/
structure StoredOrder where
  id : String
  userId : String
  clobOrderId : Option String
  status : OrderStatus
  size : ℚ
  filledSize : ℚ
deriving DecidableEq

/-- A CLOB getOrder body as read by cancelOrder.  `sizeMatched` is the
numeric value of `parseFloat(x.size_matched || x.sizeMatched || '0')`;
string parsing happens at the boundary and is not re-modelled. -/
structure ClobOrderInfo where
  status : Option String
  state : Option String
  sizeMatched : ℚ
deriving DecidableEq

/-- Outcome of a CLOB getOrder call: a body, a falsy body, or a thrown
error (both read sites catch and ignore the error). -/
inductive GetOrderOutcome
  | found (info : ClobOrderInfo)
  | missing
  | exn (msg : String)

/-- Remote calls issued by cancelOrder, in order. -/
inductive CancelRemoteCall
  | getOrderCall
  | cancelCall
deriving DecidableEq

/-- Oracle for the three remote interactions of cancelOrder: the initial
status read, the cancel call (some msg when it throws — tolerated), and
the post-cancel status re-read. -/
structure CancelOracle where
  firstGet : GetOrderOutcome
  cancelThrows : Option String
  secondGet : GetOrderOutcome

/-- Result of the embedded cancelOrder: final record state (unchanged on
a guard failure, none when no record matched the id), the remote calls
issued, and the returned status or raised error. -/
structure CancelOrderResult where
  record : Option StoredOrder
  remoteCalls : List CancelRemoteCall
  result : Except String OrderStatus

/-- Guard-failure exit of cancelOrder: raised before the try block, so no
remote call is issued and the record is untouched. -/
def cancelGuardFail (rec : Option StoredOrder) (msg : String) :
    CancelOrderResult :=
  { record := rec, remoteCalls := [], result := .error msg }

/-- The first status read of cancelOrder (source lines 603-616):
`clobOrder.status || clobOrder.state || 'UNKNOWN'` and the matched size,
defaulting to UNKNOWN / 0 when the body is falsy or the read throws. -/
def cancelFirstRead : GetOrderOutcome → String × ℚ
  | .found info =>
    ((jsOrStr info.status (jsOrStr info.state (some "UNKNOWN"))).getD
      "UNKNOWN", info.sizeMatched)
  | .missing => ("UNKNOWN", 0)
  | .exn _ => ("UNKNOWN", 0)

/-- The post-cancel classification (source lines 645-667): FILLED when the
re-read shows matched/filled, CANCELLED otherwise, recording a partial
fill when some size matched.  Returns the final status and the filled-size
update, defaulting to CANCELLED when the re-read gives nothing. -/
def cancelSecondRead (orderSize : ℚ) : GetOrderOutcome → OrderStatus × Option ℚ
  | .found info =>
    let statusAfter := (jsOrStr info.status (some "")).getD ""
    let matchedAfter := info.sizeMatched
    if statusAfter = "MATCHED" ∨ statusAfter = "FILLED" ∨
        matchedAfter ≥ orderSize then
      (.FILLED, none)
    else if matchedAfter > 0 then (.CANCELLED, some matchedAfter)
    else (.CANCELLED, none)
  | .missing => (.CANCELLED, none)
  | .exn _ => (.CANCELLED, none)

/-- `OrderService.cancelOrder` (source lines 556-708).  `lookup` is the
record found by local id or CLOB id (none when neither matched).  Guards:
ownership, presence of a CLOB id, and LIVE status — all checked before any
remote call.  Then: read remote state, short-circuit to FILLED when
already matched, otherwise cancel (tolerating a throw) and re-read to
classify the outcome.  The returned value on the cancel path is always
CANCELLED (source line 692) even when the re-read classified FILLED. -/
def cancelOrder (requestUserId : String) (lookup : Option StoredOrder)
    (o : CancelOracle) : CancelOrderResult :=
  match lookup with
  | none => cancelGuardFail none "Order not found"
  | some order =>
    if order.userId ≠ requestUserId then
      cancelGuardFail (some order) "Order does not belong to user"
    else
      match order.clobOrderId with
      | none => cancelGuardFail (some order) "Order has no CLOB ID"
      | some _ =>
        if order.status ≠ OrderStatus.LIVE then
          cancelGuardFail (some order)
            ("Cannot cancel order with status: " ++ order.status.toStr)
        else
          let fst := cancelFirstRead o.firstGet
          let actualStatus := fst.1
          let sizeMatched := fst.2
          if actualStatus = "MATCHED" ∨ actualStatus = "FILLED" ∨
              sizeMatched ≥ order.size then
            { record := some
                { order with status := .FILLED, filledSize := sizeMatched }
              remoteCalls := [.getOrderCall]
              result := .ok .FILLED }
          else
            let snd := cancelSecondRead order.size o.secondGet
            { record := some
                { order with
                  status := snd.1,
                  filledSize := (snd.2).getD order.filledSize }
              remoteCalls := [.getOrderCall, .cancelCall, .getOrderCall]
              result := .ok .CANCELLED }

/-! ## POST /api/orders/execute-atomic (src/routes/orders.ts 235-472) -/

/-- One order of an atomic batch request, with the fields the route
validates. -/
structure AtomicOrderInput where
  tokenId : String
  price : ℚ
  size : ℚ
  side : String
deriving DecidableEq

/-- Per-order validation of the atomic route (source lines 290-306):
tokenId present, price within [0.01, 0.99], positive size, BUY/SELL side.
Returns the first error message, if any. -/
def validateAtomicOrder (i : Nat) (o : AtomicOrderInput) : Option String :=
  if !jsTruthy (some o.tokenId) then
    some ("Order " ++ toString i ++ ": tokenId is required")
  else if o.price < mkRat 1 100 ∨ o.price > mkRat 99 100 then
    some ("Order " ++ toString i ++ ": price must be between 0.01 and 0.99")
  else if o.size ≤ 0 then
    some ("Order " ++ toString i ++ ": size must be a positive number")
  else if ¬(o.side = "BUY" ∨ o.side = "SELL") then
    some ("Order " ++ toString i ++ ": side must be BUY or SELL")
  else none

/-- Sequential validation of the whole batch, first failure wins. -/
def validateAtomicOrders : List AtomicOrderInput → Nat → Option String
  | [], _ => none
  | o :: rest, i =>
    match validateAtomicOrder i o with
    | some e => some e
    | none => validateAtomicOrders rest (i + 1)

/-- Outcome of processing one batch member against the CLOB: postOrder
returned a body, or an exception was thrown while creating/posting the
member (its database record, created first, then stays PENDING). -/
inductive SubmitOutcome
  | resp (r : ClobPostResponse)
  | exn (msg : String)

/-- Whether the outcome involved a completed postOrder call. -/
def SubmitOutcome.posted : SubmitOutcome → Bool
  | .resp _ => true
  | .exn _ => false

/-- A batch member's local order record after the processing loop. -/
structure AtomicRecord where
  idx : Nat
  clobOrderId : Option String
  status : OrderStatus
deriving DecidableEq

/-- One iteration of the atomic processing loop (source lines 352-425):
create the record, submit, check the error shape, extract the remote id;
on success the record goes LIVE and the id joins the rollback list, on any
failure the catch records the failure and the loop CONTINUES with the next
order.  Returns the record and the submitted id, if any. -/
def atomicStep (submit : Nat → SubmitOutcome) (i : Nat) :
    AtomicRecord × Option String :=
  match submit i with
  | .exn _ => ({ idx := i, clobOrderId := none, status := .PENDING }, none)
  | .resp r =>
    if postOrderErrorShaped r then
      ({ idx := i, clobOrderId := none, status := .PENDING }, none)
    else
      match extractClobOrderId r with
      | none => ({ idx := i, clobOrderId := none, status := .PENDING }, none)
      | some cid =>
        ({ idx := i, clobOrderId := some cid, status := .LIVE }, some cid)

/-- Response of the atomic route: the aggregate success flag, the final
batch records, the indices whose postOrder call completed, and the
best-effort remote cancel calls with their outcome (which the code logs
and otherwise ignores). -/
structure AtomicResponse where
  success : Bool
  records : List AtomicRecord
  postCalls : List Nat
  cancelCalls : List (String × Bool)
deriving DecidableEq

/-- One record of the rollback database update: a record whose remote id
is among the submitted ids is set CANCELLED, any other is untouched. -/
def rollbackOne (submitted : List String) (rec : AtomicRecord) :
    AtomicRecord :=
  match rec.clobOrderId with
  | some c =>
    if c ∈ submitted then { rec with status := .CANCELLED } else rec
  | none => rec

/-- The rollback database update (source lines 441-450): every record
whose remote id is among the submitted ids is set CANCELLED, regardless of
whether its individual remote cancel succeeded. -/
def atomicRollbackRecords (submitted : List String)
    (records : List AtomicRecord) : List AtomicRecord :=
  records.map (rollbackOne submitted)

/-- The POST /api/orders/execute-atomic handler (source lines 235-472),
after user resolution: batch-size and per-order validation, then the
processing loop over every order, then — when some order failed AND at
least one was submitted — best-effort individual cancels and the rollback
update, answering failure; otherwise the success response. -/
def executeAtomic (orders : List AtomicOrderInput)
    (submit : Nat → SubmitOutcome) (cancelOk : String → Bool) :
    Except String AtomicResponse :=
  if orders = [] then
    .error "orders array is required and must not be empty"
  else if orders.length > 10 then
    .error "Maximum 10 orders per atomic batch"
  else
    match validateAtomicOrders orders 0 with
    | some e => .error e
    | none =>
      let n := orders.length
      let steps := (List.range n).map (atomicStep submit)
      let records := steps.map Prod.fst
      let submitted := steps.filterMap Prod.snd
      let hasFailure := steps.any fun s => s.2.isNone
      let postCalls := (List.range n).filter fun i => (submit i).posted
      if hasFailure = true ∧ submitted ≠ [] then
        .ok { success := false
              records := atomicRollbackRecords submitted records
              postCalls := postCalls
              cancelCalls := submitted.map fun cid => (cid, cancelOk cid) }
      else
        .ok { success := true, records := records, postCalls := postCalls
              cancelCalls := [] }

/-! ## WalletService (src/services/wallet.service.ts) -/

/-- `a` when truthy (JS), else none: lets a match recover the value behind
a truthiness test. -/
def truthyVal (a : Option String) : Option String :=
  if jsTruthy a then a else none

/-- The slice of the prisma user record the wallet service reads and
writes. -/
structure WUser where
  status : UserStatus
  safeAddress : Option String
  safeDeployed : Bool
  hasApiCredentials : Bool
deriving DecidableEq

/-- A relayer deploy() response body, with the fields the source reads. -/
structure DeployResponse where
  proxyAddress : Option String
  proxyWallet : Option String
  transactionID : Option String
  transactionHash : Option String
deriving DecidableEq

/-- Outcome of one relayer deploy() call. -/
inductive DeployCallOutcome
  | resp (r : DeployResponse)
  | exn (msg : String)

/-- A pollUntilState result body. -/
structure PollResultShape where
  proxyAddress : Option String
  transactionHash : Option String
deriving DecidableEq

/-- Outcome of pollUntilState: a returned result or a throw (failure state
reached or polling error) — the caller catches the throw and treats it
like a null result. -/
inductive PollOutcome
  | res (r : Option PollResultShape)
  | exn (msg : String)

/-- Oracle for the remote world seen by deploySafeWallet: whether builder
credentials are configured, the outcome of the nth top-level deploy
attempt (1-based), the outcome of the extra deploy issued during
already-deployed recovery, the chain bytecode answer for the nth getCode
call of this operation (0-based — consecutive reads of one address may
differ while a transaction confirms), the predicted CREATE2 address, and
the polling outcome. -/
structure DeployOracle where
  builderConfigured : Bool
  attemptOutcome : Nat → DeployCallOutcome
  recoveryDeploy : DeployCallOutcome
  getCode : Nat → String → Bool
  predicted : Option String
  poll : PollOutcome

/-- Mutable state threaded through deploySafeWallet: the user record plus
the observable trace (persisted status writes, deploy submissions, waits,
getCode call counter). -/
structure DeployState where
  user : WUser
  writes : List UserStatus
  deployCalls : Nat
  waits : List Nat
  codeCalls : Nat

/-- Persist a status value (one prisma.user.update carrying status). -/
def writeStatus (st : DeployState) (s : UserStatus) : DeployState :=
  { st with user := { st.user with status := s }, writes := st.writes ++ [s] }

/-- Count one relayer deploy() submission. -/
def noteDeployCall (st : DeployState) : DeployState :=
  { st with deployCalls := st.deployCalls + 1 }

/-- Record one setTimeout wait of the given milliseconds. -/
def noteWait (st : DeployState) (ms : Nat) : DeployState :=
  { st with waits := st.waits ++ [ms] }

/-- One provider.getCode read: true when the address holds bytecode
(source tests code !== '0x' and length > 2). -/
def checkCode (o : DeployOracle) (st : DeployState) (addr : String) :
    Bool × DeployState :=
  (o.getCode st.codeCalls addr, { st with codeCalls := st.codeCalls + 1 })

/-- `saveSafeDeployment` (source lines 471-515): persist the address, the
deployment flag and the SAFE_DEPLOYED status. -/
def saveSafeDeployment (st : DeployState) (addr : String) : DeployState :=
  writeStatus
    { st with user :=
        { st.user with safeAddress := some addr, safeDeployed := true } }
    UserStatus.SAFE_DEPLOYED

/-- `maxRetries` of the deployment submission loop. -/
def maxRetries : Nat := 3

/-- The state right after the DEPLOYING status is persisted (source line
181-184), from which the deployment body runs. -/
def deployStartState (u : WUser) : DeployState :=
  { user := { u with status := .SAFE_DEPLOYING }
    writes := [UserStatus.SAFE_DEPLOYING]
    deployCalls := 0, waits := [], codeCalls := 0 }

/-- Outcome of the try part of one submission-loop iteration. -/
inductive TryStep
  | earlyFound (addr : String) (st : DeployState)
  | gotTx (known : Option String) (st : DeployState)
  | caught (msg : String) (known : Option String) (st : DeployState)

/-- The try block of one submission-loop iteration (source lines 215-241):
deploy, remember a returned proxy address, early-succeed when it already
holds bytecode, break on a transaction id, and otherwise throw into the
iteration's catch. -/
def loopTry (o : DeployOracle) (attemptNo : Nat) (known : Option String)
    (st : DeployState) : TryStep :=
  let st1 := noteDeployCall st
  match o.attemptOutcome attemptNo with
  | .exn m => .caught m known st1
  | .resp r =>
    match truthyVal (jsOrStr r.proxyAddress r.proxyWallet) with
    | some addr =>
      let cc := checkCode o st1 addr
      if cc.1 then .earlyFound addr (saveSafeDeployment cc.2 addr)
      else if jsTruthy r.transactionID then .gotTx (some addr) cc.2
      else .caught "No transaction ID in deploy response" (some addr) cc.2
    | none =>
      if jsTruthy r.transactionID then .gotTx known st1
      else .caught "No transaction ID in deploy response" known st1

/-- Outcome of the catch part of one submission-loop iteration. -/
inductive CatchStep
  | recovered (addr : String) (st : DeployState)
  | continueRetry (known : Option String) (st : DeployState)
  | exhausted (msg : String) (st : DeployState)

/-- Tail of the iteration catch (source lines 265-271): wait
attempt × 2000 ms before the next attempt, or let the loop exhaust. -/
def loopCatchContinue (attemptNo : Nat) (msg : String)
    (known : Option String) (st : DeployState) : CatchStep :=
  if attemptNo < maxRetries then
    .continueRetry known (noteWait st (attemptNo * 2000))
  else .exhausted msg st

/-- The catch block of one submission-loop iteration (source lines
242-271): harvest an address from the error text, check whether the Safe
already exists at the known or predicted address (early success), else
back off and retry. -/
def loopCatch (o : DeployOracle) (attemptNo : Nat) (msg : String)
    (known : Option String) (st : DeployState) : CatchStep :=
  let known1 := jsOrStr known (extractEthAddress msg)
  let addressToCheck := jsOrStr known1 o.predicted
  match addressToCheck with
  | some a =>
    let cc := checkCode o st a
    if cc.1 then .recovered a (saveSafeDeployment cc.2 a)
    else loopCatchContinue attemptNo msg known1 cc.2
  | none => loopCatchContinue attemptNo msg known1 st

/-- Exit of the whole submission loop. -/
inductive LoopOut
  | found (addr : String) (st : DeployState)
  | tx (known : Option String) (st : DeployState)
  | failed (msg : String) (st : DeployState)

/-- The deployment submission retry loop (source lines 214-276), fuelled
by the remaining attempts; the fuel-0 default arm models the
`lastError || new Error(...)` fallback for a null lastError, which the
control flow never reaches. -/
def deployLoop (o : DeployOracle) :
    Nat → Nat → Option String → DeployState → LoopOut
  | 0, _, _, st =>
    .failed "Failed to submit Safe deployment after retries" st
  | Nat.succ f, attemptNo, known, st =>
    match loopTry o attemptNo known st with
    | .earlyFound addr st2 => .found addr st2
    | .gotTx known2 st2 => .tx known2 st2
    | .caught msg known2 st2 =>
      match loopCatch o attemptNo msg known2 st2 with
      | .recovered addr st3 => .found addr st3
      | .exhausted m st3 => .failed m st3
      | .continueRetry known3 st3 => deployLoop o f (attemptNo + 1) known3 st3

/-- Terminal outcome of the body of deploySafeWallet before the outer
catch. -/
inductive DeployDone
  | ok (addr : String) (st : DeployState)
  | err (msg : String) (st : DeployState)

/-- The diagnostic raised when every recovery heuristic failed (source
lines 331-342), carrying the candidate addresses and the builder
credential status. -/
def deployUnresolvedMsg (o : DeployOracle) (known : Option String) :
    String :=
  "Safe deployment failed - no proxy address returned and Safe not found on-chain. Known proxy: " ++
    known.getD "none" ++ ", Predicted: " ++ o.predicted.getD "none" ++
    ". " ++
    (if o.builderConfigured then
      "Builder credentials are configured but the relayer rejected the deployment."
    else
      "CRITICAL: Builder credentials are NOT configured. Set POLY_BUILDER_API_KEY, POLY_BUILDER_SECRET, and POLY_BUILDER_PASSPHRASE environment variables.") ++
    " If this persists, check your Builder API credentials at https://polymarket.com/settings?tab=builder"

/-- The predicted-address fallback of the post-poll recovery (source lines
320-329): only consulted when distinct from the known proxy address. -/
def pollRecoveryPredicted (o : DeployOracle) (known : Option String)
    (st : DeployState) : DeployDone :=
  match o.predicted with
  | some p =>
    if known ≠ some p then
      let cc := checkCode o st p
      if cc.1 then .ok p (saveSafeDeployment cc.2 p)
      else .err (deployUnresolvedMsg o known) cc.2
    else .err (deployUnresolvedMsg o known) st
  | none => .err (deployUnresolvedMsg o known) st

/-- The post-poll recovery (source lines 296-343): re-check the address
the relayer reported, once more after a fixed 5000 ms wait, then fall back
to the predicted address, and only then raise the unresolved
diagnostic. -/
def pollRecovery (o : DeployOracle) (known : Option String)
    (st : DeployState) : DeployDone :=
  match known with
  | some k =>
    let cc := checkCode o st k
    if cc.1 then .ok k (saveSafeDeployment cc.2 k)
    else
      let st2 := noteWait cc.2 5000
      let cc2 := checkCode o st2 k
      if cc2.1 then .ok k (saveSafeDeployment cc2.2 k)
      else pollRecoveryPredicted o known cc2.2
  | none => pollRecoveryPredicted o known st

/-- Await the submitted deployment (source lines 278-349): poll until a
terminal state — a throw is caught and treated like a null result — then
either persist the confirmed proxy address or enter recovery. -/
def deployAfterTx (o : DeployOracle) (known : Option String)
    (st : DeployState) : DeployDone :=
  let pollRes : Option PollResultShape :=
    match o.poll with
    | .res r => r
    | .exn _ => none
  match pollRes with
  | some r =>
    match truthyVal r.proxyAddress with
    | some addr => .ok addr (saveSafeDeployment st addr)
    | none => pollRecovery o known st
  | none => pollRecovery o known st

/-- ASCII lowercasing of a string, modelling `toLowerCase()` on the
error messages involved. -/
def strLower (s : String) : String :=
  String.mk (s.toList.map Char.toLower)

/-- Classification of an error message as an already-deployed condition
(source lines 356-358, on the lowercased message). -/
def alreadyDeployedErr (m : String) : Bool :=
  let l := strLower m
  strContains l "safe already deployed" || strContains l "already deployed" ||
    strContains l "proxy already exists"

/-- The terminal failure revert (source lines 458-464): persist CREATED
and rethrow. -/
def deployRevert (msg : String) (st : DeployState) : DeployDone :=
  .err msg (writeStatus st UserStatus.CREATED)

/-- The outer catch of deploySafeWallet (source lines 350-465): an
already-deployed error triggers address recovery — from the error text,
from one more deploy call, or from the predicted address — verified by an
on-chain bytecode read and persisted as success; every other path reverts
the status to CREATED and rethrows. -/
def deployCatch (o : DeployOracle) (msg : String) (st : DeployState) :
    DeployDone :=
  if alreadyDeployedErr msg ∧ o.builderConfigured then
    let addr1 := extractEthAddress msg
    let step2 : Option String × DeployState :=
      match addr1 with
      | some a => (some a, st)
      | none =>
        let st2 := noteDeployCall st
        match o.recoveryDeploy with
        | .resp r => (truthyVal r.proxyAddress, st2)
        | .exn m2 => (extractEthAddress m2, st2)
    let addr3 := jsOrStr step2.1 o.predicted
    match addr3 with
    | some a =>
      let cc := checkCode o step2.2 a
      if cc.1 then .ok a (saveSafeDeployment cc.2 a)
      else deployRevert msg cc.2
    | none => deployRevert msg step2.2
  else deployRevert msg st

/-- Result of the embedded deploySafeWallet: the final user record, the
persisted status writes in order, the number of relayer deploy
submissions, the waits, and the returned address or raised error. -/
structure DeployResult where
  user : WUser
  statusWrites : List UserStatus
  deployCalls : Nat
  waits : List Nat
  outcome : Except String String

/-- `WalletService.deploySafeWallet` (source lines 167-466): idempotent
fast path for an already-deployed account, else mark DEPLOYING, submit
with bounded retry, await/recover, and persist either success
(DEPLOYED) or the revert to CREATED — never returning mid-state. -/
def deploySafeWallet (u : WUser) (o : DeployOracle) : DeployResult :=
  match (if u.safeDeployed then truthyVal u.safeAddress else none) with
  | some addr =>
    { user := u, statusWrites := [], deployCalls := 0, waits := []
      outcome := .ok addr }
  | none =>
    let st0 : DeployState := deployStartState u
    let done : DeployDone :=
      if o.builderConfigured = false then
        deployCatch o
          "Builder credentials not configured - required for gasless Safe deployment"
          st0
      else
        match deployLoop o maxRetries 1 none st0 with
        | .found addr st => .ok addr st
        | .failed m st => deployCatch o m st
        | .tx known st =>
          match deployAfterTx o known st with
          | .ok a st2 => .ok a st2
          | .err m st2 => deployCatch o m st2
    match done with
    | .ok a st =>
      { user := st.user, statusWrites := st.writes
        deployCalls := st.deployCalls, waits := st.waits, outcome := .ok a }
    | .err m st =>
      { user := st.user, statusWrites := st.writes
        deployCalls := st.deployCalls, waits := st.waits
        outcome := .error m }

/-! ### Credential issuance (source lines 793-978) -/

/-- A CLOB credential response body: each field may arrive under either
naming. -/
structure ApiCredsResponse where
  apiKey : Option String
  key : Option String
  apiSecret : Option String
  secret : Option String
  apiPassphrase : Option String
  passphrase : Option String
deriving DecidableEq

/-- Outcome of one deriveApiKey/createApiKey call. -/
inductive CredCallOutcome
  | resp (r : ApiCredsResponse)
  | exn (msg : String)

/-- Oracle for the two credential calls: the derive attempt (expected to
fail for new accounts) and the create fallback. -/
structure CredOracle where
  deriveKey : CredCallOutcome
  createKey : CredCallOutcome

/-- Field normalisation at one credential call site:
`response?.apiKey || response?.key || ''` and likewise for secret and
passphrase. -/
def credFields (r : ApiCredsResponse) : String × String × String :=
  ((jsOrStr r.apiKey (jsOrStr r.key (some ""))).getD "",
   (jsOrStr r.apiSecret (jsOrStr r.secret (some ""))).getD "",
   (jsOrStr r.apiPassphrase (jsOrStr r.passphrase (some ""))).getD "")

/-- Credentials accepted from one call: all three fields truthy; a thrown
call or empty fields yield nothing (the caller falls through). -/
def credFromOutcome : CredCallOutcome → Option (String × String × String)
  | .resp r =>
    let f := credFields r
    if f.1 ≠ "" ∧ f.2.1 ≠ "" ∧ f.2.2 ≠ "" then some f else none
  | .exn _ => none

/-- Derive-then-create fallback (source lines 830-872). -/
def obtainCredentials (o : CredOracle) : Option (String × String × String) :=
  match credFromOutcome o.deriveKey with
  | some c => some c
  | none => credFromOutcome o.createKey

/-- Result of the embedded createApiCredentials: the final user record,
the persisted status writes, whether the secret failed the re-encode
round-trip (which the source only logs as a warning), and the outcome. -/
structure CredResult where
  user : WUser
  statusWrites : List UserStatus
  roundTripWarned : Bool
  outcome : Except String Unit

/-- `WalletService.createApiCredentials` (source lines 793-931): require a
deployed Safe, mark SETTING_UP, obtain credentials via derive-then-create,
validate the secret decodes from base64 — a decode failure aborts — check
the re-encode round-trip but only WARN on a mismatch, persist, and mark
READY; any raised error reverts the status to SAFE_DEPLOYED. -/
def createApiCredentials (u : WUser) (o : CredOracle) : CredResult :=
  match truthyVal u.safeAddress with
  | none =>
    { user := u, statusWrites := [], roundTripWarned := false
      outcome := .error
        "Safe wallet not deployed - deploy Safe first before creating credentials" }
  | some _ =>
    let u1 : WUser := { u with status := .SETTING_UP }
    match obtainCredentials o with
    | none =>
      { user := { u1 with status := .SAFE_DEPLOYED }
        statusWrites := [.SETTING_UP, .SAFE_DEPLOYED]
        roundTripWarned := false
        outcome := .error
          "Failed to obtain CLOB API credentials - both derive and create failed. The wallet may have too many existing API keys on Polymarket." }
    | some c =>
      match bufferFromBase64 c.2.1 with
      | none =>
        { user := { u1 with status := .SAFE_DEPLOYED }
          statusWrites := [.SETTING_UP, .SAFE_DEPLOYED]
          roundTripWarned := false
          outcome := .error
            "CLOB API returned invalid base64 secret - cannot proceed" }
      | some decoded =>
        { user := { u1 with status := .READY, hasApiCredentials := true }
          statusWrites := [.SETTING_UP, .READY]
          roundTripWarned := !(b64Encode decoded == c.2.1)
          outcome := .ok () }

/-- `WalletService.resetApiCredentials` (source lines 937-978): require a
deployed Safe, clear the persisted credential fields while setting the
status back to SAFE_DEPLOYED, then re-run createApiCredentials. -/
def resetApiCredentials (u : WUser) (o : CredOracle) : CredResult :=
  match truthyVal u.safeAddress with
  | none =>
    { user := u, statusWrites := [], roundTripWarned := false
      outcome := .error
        "Safe wallet not deployed - deploy Safe first before creating credentials" }
  | some _ =>
    let u2 : WUser :=
      { u with hasApiCredentials := false, status := .SAFE_DEPLOYED }
    let inner := createApiCredentials u2 o
    { user := inner.user
      statusWrites := UserStatus.SAFE_DEPLOYED :: inner.statusWrites
      roundTripWarned := inner.roundTripWarned
      outcome := inner.outcome }

/-! ## Property predicates and projections used by the verification -/

/-- The LIVE-iff-remote-id property of a createOrder result: the record
exists, is LIVE exactly when the accepted remote response carried a truthy
order id (equivalently, exactly when the call returned instead of
raising), and an accepted response without an id leaves the record FAILED
with the call raising. -/
def liveIffRemoteId (res : CreateOrderResult) : Prop :=
  ∃ rec, res.record = some rec ∧
    (rec.status = OrderStatus.LIVE ↔
      ∃ r cid, res.acceptedResponse = some r ∧
        extractClobOrderId r = some cid) ∧
    (rec.status = OrderStatus.LIVE ↔ ∃ cid, res.result = .ok cid) ∧
    (∀ r, res.acceptedResponse = some r → extractClobOrderId r = none →
      rec.status = OrderStatus.FAILED ∧ ∃ m, res.result = .error m)

/-- State component of a submission-loop try step. -/
def TryStep.st : TryStep → DeployState
  | .earlyFound _ s => s
  | .gotTx _ s => s
  | .caught _ _ s => s

/-- State component of a submission-loop catch step. -/
def CatchStep.st : CatchStep → DeployState
  | .recovered _ s => s
  | .continueRetry _ s => s
  | .exhausted _ s => s

/-- State component of a submission-loop exit. -/
def LoopOut.st : LoopOut → DeployState
  | .found _ s => s
  | .tx _ s => s
  | .failed _ s => s

/-- State component of a deploy body outcome. -/
def DeployDone.st : DeployDone → DeployState
  | .ok _ s => s
  | .err _ s => s

/-! ## Concrete fixtures used by witnesses and counterexamples -/

/-- A success-shaped CLOB response carrying the remote id 0xcid. -/
def respOkCid : ClobPostResponse :=
  { error := none, message := none, status := none, orderID := some "0xcid"
    orderId := none, id := none }

/-- A success-shaped CLOB response whose error field reports a
balance-class rejection. -/
def respBalanceErr : ClobPostResponse :=
  { error := some "not enough balance", message := none, status := none
    orderID := none, orderId := none, id := none }

/-- A READY user record with a deployed Safe. -/
def uReadyRec : UserRec := { status := .READY, safeAddress := some "0xS" }

/-- The empty routing cache. -/
def emptyNegCache : NegRiskCache := fun _ => none

/-- An attempt oracle that rejects with a balance-class error under
routing false and accepts with id 0xcid under routing true. -/
def attemptFlip : Bool → AttemptOutcome := fun b =>
  if b then .resp respOkCid else .resp respBalanceErr

/-- A valid atomic batch member (price 0.5, size 10, BUY). -/
def atomicOrdIn : AtomicOrderInput :=
  { tokenId := "t", price := mkRat 1 2, size := 10, side := "BUY" }

/-- A submission oracle for which position 0 is accepted with remote id A,
position 1 is rejected with a balance error in a success-shaped body, and
every later position is accepted with remote id C. -/
def submitFailAt1 : Nat → SubmitOutcome := fun i =>
  if i = 0 then
    .resp { error := none, message := none, status := none
            orderID := some "A", orderId := none, id := none }
  else if i = 1 then .resp respBalanceErr
  else
    .resp { error := none, message := none, status := none
            orderID := some "C", orderId := none, id := none }

/-! ## Theorems -/

/-- C10: for every cancel request on an order whose locally recorded
status is anything other than LIVE, cancelOrder raises an error before
issuing any remote read or cancel call and leaves the local order record
unchanged, even when the order carries a remote identifier. -/
theorem c10_cancel_requires_live (u : String) (order : StoredOrder)
    (o : CancelOracle) (h : order.status ≠ OrderStatus.LIVE)
    (hu : order.userId = u) :
    (cancelOrder u (some order) o).record = some order ∧
    (cancelOrder u (some order) o).remoteCalls = [] ∧
    ∃ m, (cancelOrder u (some order) o).result = .error m := by
  unfold cancelOrder cancelGuardFail
  rcases hc : order.clobOrderId with _ | cid <;> simp [hu, hc, h]

/-- Witness for C10: a PENDING order that does carry a remote id is
rejected with no remote calls and an unchanged record. -/
theorem c10_cancel_requires_live_witness :
    (cancelOrder "u1"
      (some { id := "o1", userId := "u1", clobOrderId := some "X"
              status := OrderStatus.PENDING, size := 10, filledSize := 0 })
      { firstGet := .missing, cancelThrows := none
        secondGet := .missing }).record =
      some { id := "o1", userId := "u1", clobOrderId := some "X"
             status := OrderStatus.PENDING, size := 10, filledSize := 0 } ∧
    (cancelOrder "u1"
      (some { id := "o1", userId := "u1", clobOrderId := some "X"
              status := OrderStatus.PENDING, size := 10, filledSize := 0 })
      { firstGet := .missing, cancelThrows := none
        secondGet := .missing }).remoteCalls = [] ∧
    ∃ m, (cancelOrder "u1"
      (some { id := "o1", userId := "u1", clobOrderId := some "X"
              status := OrderStatus.PENDING, size := 10, filledSize := 0 })
      { firstGet := .missing, cancelThrows := none
        secondGet := .missing }).result = .error m :=
  c10_cancel_requires_live "u1"
    { id := "o1", userId := "u1", clobOrderId := some "X"
      status := OrderStatus.PENDING, size := 10, filledSize := 0 }
    { firstGet := .missing, cancelThrows := none, secondGet := .missing }
    (by decide) rfl

/-- C5 counterexample: an order priced exactly 0.01 lies outside the OPEN
interval (0.01, 0.99) claimed by the spec, yet the code accepts it — the
validation only rejects prices strictly below 0.01 or strictly above
0.99 — so a remote submission attempt is made and the order goes LIVE. -/
theorem c5_price_boundary_counterexample :
    (mkRat 1 100 ∉ Set.Ioo (mkRat 1 100) (mkRat 99 100)) ∧
    (createOrder
      { conditionId := "c", tokenId := "t", side := "BUY", price := mkRat 1 100
        size := 10, orderType := .GTC, expiration := none }
      { status := .READY, safeAddress := some "0xS" }
      (fun _ => none) (some false)
      (fun _ => .resp
        { error := none, message := none, status := none
          orderID := some "0xcid", orderId := none, id := none })).attempts =
      [false] ∧
    (createOrder
      { conditionId := "c", tokenId := "t", side := "BUY", price := mkRat 1 100
        size := 10, orderType := .GTC, expiration := none }
      { status := .READY, safeAddress := some "0xS" }
      (fun _ => none) (some false)
      (fun _ => .resp
        { error := none, message := none, status := none
          orderID := some "0xcid", orderId := none, id := none })).result =
      .ok "0xcid" := by
  refine ⟨by simp, rfl, rfl⟩

/-- C5 as amended: the order is rejected before any remote call and
before any record is created whenever the price lies outside the CLOSED
interval [0.01, 0.99], or the size is not strictly positive, or the kind
is GTD with no expiration supplied; in particular a price of 0.995 is
rejected before any remote call. -/
theorem c5_validation_rejects (p : CreateOrderParams) (user : UserRec)
    (cache : NegRiskCache) (detect : Option Bool)
    (attempt : Bool → AttemptOutcome)
    (h : p.price < mkRat 1 100 ∨ p.price > mkRat 99 100 ∨ p.size ≤ 0 ∨
      (p.orderType = .GTD ∧ p.expiration = none)) :
    (∃ m, (createOrder p user cache detect attempt).result = .error m) ∧
    (createOrder p user cache detect attempt).attempts = [] ∧
    (createOrder p user cache detect attempt).record = none := by
  unfold createOrder createOrderRejected
  split_ifs with h1 h2 h3 h4
  · exact ⟨⟨_, rfl⟩, rfl, rfl⟩
  · exact ⟨⟨_, rfl⟩, rfl, rfl⟩
  · exact ⟨⟨_, rfl⟩, rfl, rfl⟩
  · exact ⟨⟨_, rfl⟩, rfl, rfl⟩
  · exfalso
    rcases h with h | h | h | ⟨hg, he⟩
    · exact h1 (Or.inl h)
    · exact h1 (Or.inr h)
    · exact h2 h
    · exact h3 ⟨hg, by simp [jsFalsyNum, he]⟩

/-- Witness for C5 as amended: price 0.995 is rejected with no record and
no remote attempt. -/
theorem c5_validation_rejects_witness :
    (∃ m, (createOrder
      { conditionId := "c", tokenId := "t", side := "BUY", price := mkRat 199 200
        size := 10, orderType := .GTC, expiration := none }
      { status := .READY, safeAddress := some "0xS" }
      (fun _ => none) (some false)
      (fun _ => .resp
        { error := none, message := none, status := none
          orderID := some "0xcid", orderId := none, id := none })).result =
        .error m) ∧
    (createOrder
      { conditionId := "c", tokenId := "t", side := "BUY", price := mkRat 199 200
        size := 10, orderType := .GTC, expiration := none }
      { status := .READY, safeAddress := some "0xS" }
      (fun _ => none) (some false)
      (fun _ => .resp
        { error := none, message := none, status := none
          orderID := some "0xcid", orderId := none, id := none })).attempts =
      [] ∧
    (createOrder
      { conditionId := "c", tokenId := "t", side := "BUY", price := mkRat 199 200
        size := 10, orderType := .GTC, expiration := none }
      { status := .READY, safeAddress := some "0xS" }
      (fun _ => none) (some false)
      (fun _ => .resp
        { error := none, message := none, status := none
          orderID := some "0xcid", orderId := none, id := none })).record =
      none :=
  c5_validation_rejects _ _ _ _ _ (Or.inr (Or.inl (by norm_num)))

/-- Any failure exit after record creation satisfies the LIVE-iff-id
property: the record is FAILED, no accepted response, the call raises. -/
theorem createOrderFailed_liveIff (msg : String) (atts : List Bool)
    (cache : NegRiskCache) : liveIffRemoteId (createOrderFailed msg atts cache) := by
  refine ⟨_, rfl, ?_, ?_, ?_⟩ <;> simp [createOrderFailed, liveIffRemoteId]

/-- Completion with an accepted response satisfies the LIVE-iff-id
property: LIVE exactly on a truthy id, else FAILED and raising. -/
theorem createOrderFinish_liveIff (r : ClobPostResponse) (atts : List Bool)
    (cache : NegRiskCache) : liveIffRemoteId (createOrderFinish r atts cache) := by
  unfold createOrderFinish
  rcases he : extractClobOrderId r with _ | cid
  · refine ⟨_, rfl, ?_, ?_, ?_⟩ <;> simp [he]
  · refine ⟨_, rfl, ?_, ?_, ?_⟩ <;> simp [he]

/-- The submission phase always satisfies the LIVE-iff-id property. -/
theorem createOrderSubmit_liveIff (p : CreateOrderParams)
    (cache : NegRiskCache) (detect : Option Bool)
    (attempt : Bool → AttemptOutcome) :
    liveIffRemoteId (createOrderSubmit p cache detect attempt) := by
  unfold createOrderSubmit
  dsimp only
  rcases h : attemptOrder attempt (isNegRiskMarket cache p.conditionId detect).1
    with m1 | r
  · simp only [h]
    split_ifs
    · exact createOrderFailed_liveIff _ _ _
    · exact createOrderFailed_liveIff _ _ _
    · exact createOrderFailed_liveIff _ _ _
    · rcases h2 : attemptOrder attempt
        (!(isNegRiskMarket cache p.conditionId detect).1) with m2 | r2 <;>
        simp only [h2]
      · exact createOrderFailed_liveIff _ _ _
      · exact createOrderFinish_liveIff _ _ _
    · exact createOrderFailed_liveIff _ _ _
  · simp only [h]
    exact createOrderFinish_liveIff _ _ _

/-- C3: for every single-order submission that passes validation, the
local order record is set LIVE if and only if the remote order-book
response contains a concrete non-null remote order identifier; when the
identifier is absent the order is recorded FAILED and the call raises,
even when the remote call returned without an exception. -/
theorem c3_live_iff_remote_id (p : CreateOrderParams) (user : UserRec)
    (cache : NegRiskCache) (detect : Option Bool)
    (attempt : Bool → AttemptOutcome)
    (h1 : ¬(p.price < mkRat 1 100 ∨ p.price > mkRat 99 100))
    (h2 : ¬ p.size ≤ 0)
    (h3 : ¬(p.orderType = .GTD ∧ jsFalsyNum p.expiration))
    (h4 : user.status = .READY) (h5 : ∃ a, user.safeAddress = some a) :
    liveIffRemoteId (createOrder p user cache detect attempt) := by
  obtain ⟨a, ha⟩ := h5
  unfold createOrder
  rw [if_neg h1, if_neg h2, if_neg h3, if_neg (by simp [h4]), ha]
  exact createOrderSubmit_liveIff p cache detect attempt

/-- Witness for C3: a valid order whose accepted response carries the id
0xcid goes LIVE and returns it. -/
theorem c3_live_iff_remote_id_witness :
    liveIffRemoteId (createOrder
      { conditionId := "c", tokenId := "t", side := "BUY"
        price := mkRat 45 100, size := 10, orderType := .GTC
        expiration := none }
      { status := .READY, safeAddress := some "0xS" }
      (fun _ => none) (some false)
      (fun _ => .resp
        { error := none, message := none, status := none
          orderID := some "0xcid", orderId := none, id := none })) :=
  c3_live_iff_remote_id _ _ _ _ _ (by decide) (by decide) (by decide) rfl
    ⟨"0xS", rfl⟩

/-- The attempts trace of a completion is the passed attempt list. -/
theorem createOrderFinish_attempts (r : ClobPostResponse) (atts : List Bool)
    (cache : NegRiskCache) : (createOrderFinish r atts cache).attempts = atts := by
  unfold createOrderFinish
  cases extractClobOrderId r <;> rfl

/-- The cache of a completion is the passed cache. -/
theorem createOrderFinish_cache (r : ClobPostResponse) (atts : List Bool)
    (cache : NegRiskCache) : (createOrderFinish r atts cache).cache = cache := by
  unfold createOrderFinish
  cases extractClobOrderId r <;> rfl

/-- C4: when the first submission attempt is rejected with a
balance/allowance-class error (and not classified as corrupted signing
material or a tick-size violation), the gateway retries exactly once under
the opposite contract-routing variant and a successful retry goes LIVE and
writes the corrected variant into the routing cache; a rejection
classified as corrupted signing material or tick-size violation is never
retried under the opposite routing. -/
theorem c4_routing_retry (p : CreateOrderParams) (user : UserRec)
    (cache : NegRiskCache) (detect : Option Bool)
    (attempt : Bool → AttemptOutcome) (m1 : String)
    (h1 : ¬(p.price < mkRat 1 100 ∨ p.price > mkRat 99 100))
    (h2 : ¬ p.size ≤ 0)
    (h3 : ¬(p.orderType = .GTD ∧ jsFalsyNum p.expiration))
    (h4 : user.status = .READY) (h5 : ∃ a, user.safeAddress = some a)
    (hf : attemptOrder attempt
      (isNegRiskMarket cache p.conditionId detect).1 = .error m1) :
    ((isBalanceAllowanceErr m1 = true ∧ isCorruptedCredsErr m1 = false ∧
      isInvalidSignatureErr m1 = false ∧ isTickSizeErr m1 = false) →
      (createOrder p user cache detect attempt).attempts =
        [(isNegRiskMarket cache p.conditionId detect).1,
         !(isNegRiskMarket cache p.conditionId detect).1] ∧
      (∀ r cid,
        attemptOrder attempt
          (!(isNegRiskMarket cache p.conditionId detect).1) = .ok r →
        extractClobOrderId r = some cid →
        (createOrder p user cache detect attempt).result = .ok cid ∧
        (createOrder p user cache detect attempt).record =
          some { clobOrderId := some cid, status := .LIVE
                 statusMessage := none } ∧
        (createOrder p user cache detect attempt).cache p.conditionId =
          some (!(isNegRiskMarket cache p.conditionId detect).1))) ∧
    ((isCorruptedCredsErr m1 = true ∨ isInvalidSignatureErr m1 = true ∨
      isTickSizeErr m1 = true) →
      (createOrder p user cache detect attempt).attempts =
        [(isNegRiskMarket cache p.conditionId detect).1] ∧
      ∃ m, (createOrder p user cache detect attempt).result = .error m) := by
  obtain ⟨a, ha⟩ := h5
  have hred : createOrder p user cache detect attempt =
      createOrderSubmit p cache detect attempt := by
    unfold createOrder
    rw [if_neg h1, if_neg h2, if_neg h3, if_neg (by simp [h4]), ha]
  rw [hred]
  unfold createOrderSubmit
  dsimp only
  simp only [hf]
  constructor
  · rintro ⟨hb, hc, hs, ht⟩
    rw [if_neg (by simp [hc]), if_neg (by simp [hs]), if_neg (by simp [ht]),
      if_pos hb]
    constructor
    · rcases h2' : attemptOrder attempt
        (!(isNegRiskMarket cache p.conditionId detect).1) with m2 | r2 <;>
        simp only [h2', createOrderFinish_attempts, createOrderFailed]
    · rintro r cid hr hcid
      simp only [hr]
      unfold createOrderFinish
      simp only [hcid]
      simp [cacheSet]
  · rintro hd
    split_ifs with hA hB hC hD
    · exact ⟨rfl, _, rfl⟩
    · exact ⟨rfl, _, rfl⟩
    · exact ⟨rfl, _, rfl⟩
    · exfalso
      rcases hd with h | h | h
      · exact hA h
      · exact hB h
      · exact hC h
    · exact ⟨rfl, _, rfl⟩

/-- Witness for C4: a submission failing under routing false with a
balance-class rejection, followed by success under routing true, makes
exactly the two attempts, returns LIVE with the remote id, and corrects
the cache. -/
theorem c4_routing_retry_witness :
    (createOrder
      { conditionId := "c", tokenId := "t", side := "BUY"
        price := mkRat 45 100, size := 10, orderType := .GTC
        expiration := none }
      uReadyRec emptyNegCache (some false) attemptFlip).attempts =
      [false, true] ∧
    (createOrder
      { conditionId := "c", tokenId := "t", side := "BUY"
        price := mkRat 45 100, size := 10, orderType := .GTC
        expiration := none }
      uReadyRec emptyNegCache (some false) attemptFlip).result =
      .ok "0xcid" ∧
    (createOrder
      { conditionId := "c", tokenId := "t", side := "BUY"
        price := mkRat 45 100, size := 10, orderType := .GTC
        expiration := none }
      uReadyRec emptyNegCache (some false) attemptFlip).cache "c" =
      some true := by
  have H := c4_routing_retry
    { conditionId := "c", tokenId := "t", side := "BUY"
      price := mkRat 45 100, size := 10, orderType := .GTC
      expiration := none }
    uReadyRec emptyNegCache (some false) attemptFlip "not enough balance"
    (by decide) (by decide) (by decide) rfl ⟨"0xS", rfl⟩ rfl
  have HA := H.1 (by decide)
  have HB := HA.2 respOkCid "0xcid" rfl rfl
  exact ⟨HA.1, HB.1, HB.2.2⟩

/-- A batch member's record id field equals the submitted-id component of
its processing step. -/
theorem atomicStep_clobOrderId (submit : Nat → SubmitOutcome) (i : Nat) :
    (atomicStep submit i).1.clobOrderId = (atomicStep submit i).2 := by
  unfold atomicStep
  rcases submit i with r | m
  · dsimp only
    split_ifs
    · rfl
    · rcases extractClobOrderId r with _ | cid <;> rfl
  · rfl

/-- A batch member whose step submitted nothing has a PENDING record. -/
theorem atomicStep_pending (submit : Nat → SubmitOutcome) (i : Nat)
    (h : (atomicStep submit i).1.clobOrderId = none) :
    (atomicStep submit i).1.status = OrderStatus.PENDING := by
  revert h
  unfold atomicStep
  rcases submit i with r | m
  · dsimp only
    split_ifs
    · intro _; rfl
    · rcases extractClobOrderId r with _ | cid <;> dsimp only
      · intro _; rfl
      · intro h; cases h
  · intro _; rfl

/-- The rollback update never changes a record's remote id. -/
theorem rollbackOne_id (submitted : List String) (rec : AtomicRecord) :
    (rollbackOne submitted rec).clobOrderId = rec.clobOrderId := by
  unfold rollbackOne
  rcases h : rec.clobOrderId with _ | c
  · dsimp only
    exact h
  · dsimp only
    split_ifs
    · rfl
    · exact h

/-- A record whose remote id was submitted is CANCELLED by rollback. -/
theorem rollbackOne_cancelled (submitted : List String) (rec : AtomicRecord)
    (c : String) (h : rec.clobOrderId = some c) (hm : c ∈ submitted) :
    (rollbackOne submitted rec).status = OrderStatus.CANCELLED := by
  unfold rollbackOne
  simp only [h]
  rw [if_pos hm]

/-- A record without a remote id is untouched by rollback. -/
theorem rollbackOne_none (submitted : List String) (rec : AtomicRecord)
    (h : rec.clobOrderId = none) : rollbackOne submitted rec = rec := by
  unfold rollbackOne
  simp only [h]

/-- Every remote id recorded on a batch record is in the submitted-ids
list of the processing loop. -/
theorem atomic_record_id_submitted (submit : Nat → SubmitOutcome) (n : Nat) :
    ∀ rec ∈ ((List.range n).map (atomicStep submit)).map Prod.fst,
      ∀ c, rec.clobOrderId = some c →
        c ∈ ((List.range n).map (atomicStep submit)).filterMap Prod.snd := by
  intro rec hrec c hc
  obtain ⟨s, hs, rfl⟩ := List.mem_map.mp hrec
  refine List.mem_filterMap.mpr ⟨s, hs, ?_⟩
  obtain ⟨i, _, rfl⟩ := List.mem_map.mp hs
  rw [← atomicStep_clobOrderId]
  exact hc

/-- C1 counterexample: in a 3-order atomic batch where the order at
position 1 fails, the order at position 2 — after the failure — is still
submitted to the remote order book (postCalls contains 2) and persisted
(its record exists, went LIVE and was then rolled back to CANCELLED),
refuting the claim that processing halts at the first failure. -/
theorem c1_counterexample :
    executeAtomic [atomicOrdIn, atomicOrdIn, atomicOrdIn] submitFailAt1
      (fun _ => true) =
      .ok { success := false
            records := [{ idx := 0, clobOrderId := some "A"
                          status := .CANCELLED },
                        { idx := 1, clobOrderId := none
                          status := .PENDING },
                        { idx := 2, clobOrderId := some "C"
                          status := .CANCELLED }]
            postCalls := [0, 1, 2]
            cancelCalls := [("A", true), ("C", true)] } := by
  rfl

/-- C1 as amended: when the order at position k of a 1-to-10-order atomic
batch fails, processing does NOT halt — every order in the batch is still
processed (and submitted, when its postOrder call completes) — and
afterwards, provided at least one order was accepted, every accepted
order, whether before or after k, is cancelled via best-effort individual
calls and its local record set CANCELLED, with the batch reporting
failure. -/
theorem c1_amended (orders : List AtomicOrderInput)
    (submit : Nat → SubmitOutcome) (cancelOk : String → Bool)
    (hne : orders ≠ []) (hlen : orders.length ≤ 10)
    (hval : validateAtomicOrders orders 0 = none)
    (k : Nat) (hk : k < orders.length)
    (hfail : (atomicStep submit k).2 = none)
    (j : Nat) (hj : j < orders.length)
    (hsucc : (atomicStep submit j).2.isSome = true) :
    ∃ resp, executeAtomic orders submit cancelOk = .ok resp ∧
      resp.success = false ∧
      resp.records.length = orders.length ∧
      (∀ rec ∈ resp.records, rec.clobOrderId.isSome = true →
        rec.status = OrderStatus.CANCELLED) ∧
      (∀ rec ∈ resp.records, ∀ cid, rec.clobOrderId = some cid →
        cid ∈ resp.cancelCalls.map Prod.fst) ∧
      (∀ i, i < orders.length → (submit i).posted = true →
        i ∈ resp.postCalls) := by
  have hHF : (((List.range orders.length).map (atomicStep submit)).any
      fun s => s.2.isNone) = true := by
    rw [List.any_eq_true]
    exact ⟨atomicStep submit k,
      List.mem_map_of_mem _ (List.mem_range.mpr hk), by simp [hfail]⟩
  have hSub : ((List.range orders.length).map
      (atomicStep submit)).filterMap Prod.snd ≠ [] := by
    obtain ⟨cid, hcid⟩ := Option.isSome_iff_exists.mp hsucc
    have hmem : cid ∈ ((List.range orders.length).map
        (atomicStep submit)).filterMap Prod.snd :=
      List.mem_filterMap.mpr ⟨atomicStep submit j,
        List.mem_map_of_mem _ (List.mem_range.mpr hj), hcid⟩
    exact List.ne_nil_of_mem hmem
  unfold executeAtomic
  rw [if_neg hne, if_neg (by omega)]
  simp only [hval]
  rw [if_pos ⟨hHF, hSub⟩]
  refine ⟨_, rfl, rfl, ?_, ?_, ?_, ?_⟩
  · simp [atomicRollbackRecords]
  · intro rec hrec hsome
    obtain ⟨rec0, hrec0, rfl⟩ := List.mem_map.mp hrec
    rcases hro : rec0.clobOrderId with _ | c
    · rw [rollbackOne_none _ _ hro] at hsome
      simp [hro] at hsome
    · exact rollbackOne_cancelled _ _ c hro
        (atomic_record_id_submitted submit orders.length rec0 hrec0 c hro)
  · intro rec hrec cid hcid
    obtain ⟨rec0, hrec0, rfl⟩ := List.mem_map.mp hrec
    rw [rollbackOne_id] at hcid
    have hcmem := atomic_record_id_submitted submit orders.length rec0
      hrec0 cid hcid
    simp only [List.map_map]
    simpa using hcmem
  · intro i hi hp
    simp only [List.mem_filter, List.mem_range]
    exact ⟨hi, hp⟩

/-- Witness for C1 as amended: the 3-order batch failing at position 1
returns failure, creates all 3 records, cancels every accepted order, and
submitted every position whose postOrder call completed. -/
theorem c1_amended_witness :
    ∃ resp, executeAtomic [atomicOrdIn, atomicOrdIn, atomicOrdIn]
        submitFailAt1 (fun _ => true) = .ok resp ∧
      resp.success = false ∧
      resp.records.length = [atomicOrdIn, atomicOrdIn, atomicOrdIn].length ∧
      (∀ rec ∈ resp.records, rec.clobOrderId.isSome = true →
        rec.status = OrderStatus.CANCELLED) ∧
      (∀ rec ∈ resp.records, ∀ cid, rec.clobOrderId = some cid →
        cid ∈ resp.cancelCalls.map Prod.fst) ∧
      (∀ i, i < [atomicOrdIn, atomicOrdIn, atomicOrdIn].length →
        (submitFailAt1 i).posted = true → i ∈ resp.postCalls) :=
  c1_amended [atomicOrdIn, atomicOrdIn, atomicOrdIn] submitFailAt1
    (fun _ => true) (by simp) (by simp) (by decide) 1 (by decide) rfl 0
    (by decide) rfl

/-- C2 counterexample: in a 2-order atomic batch where order 0 is
accepted and order 1 fails, after rollback the failed member's local
record has status PENDING, not CANCELLED — refuting the claim that every
batch member, including the one that failed, is marked CANCELLED.  (The
accepted member IS marked CANCELLED even though its remote cancel call
failed.) -/
theorem c2_counterexample :
    executeAtomic [atomicOrdIn, atomicOrdIn] submitFailAt1
      (fun _ => false) =
      .ok { success := false
            records := [{ idx := 0, clobOrderId := some "A"
                          status := .CANCELLED },
                        { idx := 1, clobOrderId := none
                          status := .PENDING }]
            postCalls := [0, 1]
            cancelCalls := [("A", false)] } ∧
    OrderStatus.PENDING ≠ OrderStatus.CANCELLED := by
  exact ⟨rfl, by decide⟩

/-- C2 as amended: after the rollback phase of a failed atomic batch,
every member that was successfully submitted (its record carries a remote
id) has status CANCELLED regardless of whether its live cancel call
succeeded, while a member that failed keeps its PENDING record and is not
marked CANCELLED. -/
theorem c2_amended (orders : List AtomicOrderInput)
    (submit : Nat → SubmitOutcome) (cancelOk cancelOk2 : String → Bool)
    (hne : orders ≠ []) (hlen : orders.length ≤ 10)
    (hval : validateAtomicOrders orders 0 = none)
    (k : Nat) (hk : k < orders.length)
    (hfail : (atomicStep submit k).2 = none)
    (j : Nat) (hj : j < orders.length)
    (hsucc : (atomicStep submit j).2.isSome = true) :
    ∃ resp, executeAtomic orders submit cancelOk = .ok resp ∧
      (∀ rec ∈ resp.records, rec.clobOrderId.isSome = true →
        rec.status = OrderStatus.CANCELLED) ∧
      (∀ rec ∈ resp.records, rec.clobOrderId = none →
        rec.status = OrderStatus.PENDING) ∧
      (∃ resp2, executeAtomic orders submit cancelOk2 = .ok resp2 ∧
        resp2.records = resp.records) := by
  have hHF : (((List.range orders.length).map (atomicStep submit)).any
      fun s => s.2.isNone) = true := by
    rw [List.any_eq_true]
    exact ⟨atomicStep submit k,
      List.mem_map_of_mem _ (List.mem_range.mpr hk), by simp [hfail]⟩
  have hSub : ((List.range orders.length).map
      (atomicStep submit)).filterMap Prod.snd ≠ [] := by
    obtain ⟨cid, hcid⟩ := Option.isSome_iff_exists.mp hsucc
    exact List.ne_nil_of_mem (List.mem_filterMap.mpr ⟨atomicStep submit j,
      List.mem_map_of_mem _ (List.mem_range.mpr hj), hcid⟩)
  have hlen' : ¬ orders.length > 10 := by omega
  unfold executeAtomic
  simp only [if_neg hne, if_neg hlen', hval, if_pos (And.intro hHF hSub)]
  refine ⟨_, rfl, ?_, ?_, ⟨_, rfl, rfl⟩⟩
  · intro rec hrec hsome
    obtain ⟨rec0, hrec0, rfl⟩ := List.mem_map.mp hrec
    rcases hro : rec0.clobOrderId with _ | c
    · rw [rollbackOne_none _ _ hro] at hsome
      simp [hro] at hsome
    · exact rollbackOne_cancelled _ _ c hro
        (atomic_record_id_submitted submit orders.length rec0 hrec0 c hro)
  · intro rec hrec hnone
    obtain ⟨rec0, hrec0, rfl⟩ := List.mem_map.mp hrec
    rw [rollbackOne_id] at hnone
    rw [rollbackOne_none _ _ hnone]
    obtain ⟨s, hs, rfl⟩ := List.mem_map.mp hrec0
    obtain ⟨i, _, rfl⟩ := List.mem_map.mp hs
    exact atomicStep_pending submit i hnone

/-- Witness for C2 as amended: the 2-order batch failing at position 1,
under a cancel oracle that fails every cancel call and another that
succeeds, marks the accepted member CANCELLED either way and leaves the
failed member PENDING. -/
theorem c2_amended_witness :
    ∃ resp, executeAtomic [atomicOrdIn, atomicOrdIn] submitFailAt1
        (fun _ => false) = .ok resp ∧
      (∀ rec ∈ resp.records, rec.clobOrderId.isSome = true →
        rec.status = OrderStatus.CANCELLED) ∧
      (∀ rec ∈ resp.records, rec.clobOrderId = none →
        rec.status = OrderStatus.PENDING) ∧
      (∃ resp2, executeAtomic [atomicOrdIn, atomicOrdIn] submitFailAt1
          (fun _ => true) = .ok resp2 ∧
        resp2.records = resp.records) :=
  c2_amended [atomicOrdIn, atomicOrdIn] submitFailAt1 (fun _ => false)
    (fun _ => true) (by simp) (by simp) (by decide) 1 (by decide) rfl 0
    (by decide) rfl

/-- Status writes of one submission-loop try step: an early success
appends exactly the DEPLOYED write, the other exits write nothing. -/
theorem loopTry_writes (o : DeployOracle) (a : Nat) (known : Option String)
    (st : DeployState) :
    match loopTry o a known st with
    | .earlyFound _ st2 =>
      st2.writes = st.writes ++ [UserStatus.SAFE_DEPLOYED]
    | .gotTx _ st2 => st2.writes = st.writes
    | .caught _ _ st2 => st2.writes = st.writes := by
  unfold loopTry
  rcases o.attemptOutcome a with r | m
  · dsimp only
    rcases truthyVal (jsOrStr r.proxyAddress r.proxyWallet) with _ | addr <;>
      dsimp only <;> split_ifs <;>
      simp [noteDeployCall, checkCode, saveSafeDeployment, writeStatus]
  · simp [noteDeployCall]

/-- Status writes of the back-off tail of the loop catch: nothing. -/
theorem loopCatchContinue_writes (a : Nat) (m : String)
    (known : Option String) (st : DeployState) :
    match loopCatchContinue a m known st with
    | .recovered _ st2 =>
      st2.writes = st.writes ++ [UserStatus.SAFE_DEPLOYED]
    | .continueRetry _ st2 => st2.writes = st.writes
    | .exhausted _ st2 => st2.writes = st.writes := by
  unfold loopCatchContinue
  split_ifs <;> simp [noteWait]

/-- Status writes of one submission-loop catch step: an early recovery
appends exactly the DEPLOYED write, continuing or exhausting writes
nothing. -/
theorem loopCatch_writes (o : DeployOracle) (a : Nat) (m : String)
    (known : Option String) (st : DeployState) :
    match loopCatch o a m known st with
    | .recovered _ st2 =>
      st2.writes = st.writes ++ [UserStatus.SAFE_DEPLOYED]
    | .continueRetry _ st2 => st2.writes = st.writes
    | .exhausted _ st2 => st2.writes = st.writes := by
  unfold loopCatch
  dsimp only
  rcases jsOrStr (jsOrStr known (extractEthAddress m)) o.predicted
    with _ | addr
  · exact loopCatchContinue_writes a m _ st
  · dsimp only
    split_ifs with hc
    · simp [checkCode, saveSafeDeployment, writeStatus]
    · have H := loopCatchContinue_writes a m
        (jsOrStr known (extractEthAddress m))
        (checkCode o st addr).2
      rcases h : loopCatchContinue a m (jsOrStr known (extractEthAddress m))
        (checkCode o st addr).2 with ⟨a2, st2⟩ | ⟨k2, st2⟩ | ⟨m2, st2⟩ <;>
        rw [h] at H <;> simpa [checkCode] using H

/-- Status writes of the whole submission loop: a found exit appends
exactly the DEPLOYED write, a break or exhaustion writes nothing. -/
theorem deployLoop_writes (o : DeployOracle) (fuel : Nat) : ∀ (a : Nat)
    (known : Option String) (st : DeployState),
    match deployLoop o fuel a known st with
    | .found _ st2 => st2.writes = st.writes ++ [UserStatus.SAFE_DEPLOYED]
    | .tx _ st2 => st2.writes = st.writes
    | .failed _ st2 => st2.writes = st.writes := by
  induction fuel with
  | zero => intro a known st; simp [deployLoop]
  | succ f ih =>
    intro a known st
    unfold deployLoop
    have HT := loopTry_writes o a known st
    rcases ht : loopTry o a known st with ⟨ad, st2⟩ | ⟨k2, st2⟩ |
      ⟨m, k2, st2⟩ <;> rw [ht] at HT <;> dsimp only at HT ⊢
    · exact HT
    · exact HT
    · have HC := loopCatch_writes o a m k2 st2
      rcases hc : loopCatch o a m k2 st2 with ⟨ad3, st3⟩ | ⟨k3, st3⟩ |
        ⟨m3, st3⟩ <;> rw [hc] at HC <;> dsimp only at HC ⊢
      · rw [HC, HT]
      · have HI := ih (a + 1) k3 st3
        rcases hl : deployLoop o f (a + 1) k3 st3 with ⟨ad4, st4⟩ |
          ⟨k4, st4⟩ | ⟨m4, st4⟩ <;> rw [hl] at HI <;>
          dsimp only at HI ⊢ <;> rw [HI, HC, HT]
      · rw [HC, HT]

/-- Status writes of the predicted-address fallback: success appends the
DEPLOYED write, the unresolved diagnostic writes nothing. -/
theorem pollRecoveryPredicted_writes (o : DeployOracle)
    (known : Option String) (st : DeployState) :
    match pollRecoveryPredicted o known st with
    | .ok _ st2 => st2.writes = st.writes ++ [UserStatus.SAFE_DEPLOYED]
    | .err _ st2 => st2.writes = st.writes := by
  unfold pollRecoveryPredicted
  rcases o.predicted with _ | p
  · dsimp only
  · dsimp only
    split_ifs <;> simp [checkCode, saveSafeDeployment, writeStatus]

/-- Status writes of the post-poll recovery: success appends the DEPLOYED
write, failure writes nothing. -/
theorem pollRecovery_writes (o : DeployOracle) (known : Option String)
    (st : DeployState) :
    match pollRecovery o known st with
    | .ok _ st2 => st2.writes = st.writes ++ [UserStatus.SAFE_DEPLOYED]
    | .err _ st2 => st2.writes = st.writes := by
  unfold pollRecovery
  rcases known with _ | k <;> dsimp only
  · exact pollRecoveryPredicted_writes o none st
  · split_ifs with h1 h2
    · simp [checkCode, saveSafeDeployment, writeStatus]
    · simp [checkCode, saveSafeDeployment, writeStatus, noteWait]
    · have H := pollRecoveryPredicted_writes o (some k)
        (checkCode o (noteWait (checkCode o st k).2 5000) k).2
      rcases h : pollRecoveryPredicted o (some k)
        (checkCode o (noteWait (checkCode o st k).2 5000) k).2
        with ⟨ad, st2⟩ | ⟨m, st2⟩ <;> rw [h] at H <;>
        simpa [checkCode, noteWait] using H

/-- Status writes of the await phase: success appends the DEPLOYED write,
failure writes nothing. -/
theorem deployAfterTx_writes (o : DeployOracle) (known : Option String)
    (st : DeployState) :
    match deployAfterTx o known st with
    | .ok _ st2 => st2.writes = st.writes ++ [UserStatus.SAFE_DEPLOYED]
    | .err _ st2 => st2.writes = st.writes := by
  unfold deployAfterTx
  rcases o.poll with r | m
  · dsimp only
    rcases r with _ | rr
    · dsimp only
      exact pollRecovery_writes o known st
    · dsimp only
      rcases truthyVal rr.proxyAddress with _ | ad
      · dsimp only
        exact pollRecovery_writes o known st
      · simp [saveSafeDeployment, writeStatus]
  · dsimp only
    exact pollRecovery_writes o known st

/-- Status writes of the outer catch: a successful already-deployed
recovery appends the DEPLOYED write, every other path appends the CREATED
revert. -/
theorem deployCatch_writes (o : DeployOracle) (msg : String)
    (st : DeployState) :
    match deployCatch o msg st with
    | .ok _ st2 => st2.writes = st.writes ++ [UserStatus.SAFE_DEPLOYED]
    | .err _ st2 => st2.writes = st.writes ++ [UserStatus.CREATED] := by
  unfold deployCatch deployRevert
  split_ifs with h
  · dsimp only
    rcases extractEthAddress msg with _ | a1 <;> dsimp only
    · rcases o.recoveryDeploy with r | m2 <;> dsimp only <;>
        (rcases jsOrStr _ o.predicted with _ | a3 <;> dsimp only) <;>
        (try split_ifs) <;>
        simp [writeStatus, noteDeployCall, checkCode, saveSafeDeployment]
    · rcases jsOrStr (some a1) o.predicted with _ | a3 <;> dsimp only
      · simp [writeStatus]
      · split_ifs <;>
          simp [writeStatus, checkCode, saveSafeDeployment]
  · simp [writeStatus]

/-- C6 counterexample: the credential-reset operation (exposed at POST
/api/users/:userId/reset-credentials) on a READY account first persists
status SAFE_DEPLOYED — the transition READY→DEPLOYED, which is neither a
forward move nor one of the two failure-revert edges — refuting the claim
that every provisioning operation moves the status only forward except
DEPLOYING→CREATED and SETTING_UP→DEPLOYED. -/
theorem c6_counterexample :
    (resetApiCredentials
      { status := .READY, safeAddress := some "0xS", safeDeployed := true
        hasApiCredentials := true }
      { deriveKey := .resp
          { apiKey := some "k", key := none, apiSecret := some "c2VjcmV0"
            secret := none, apiPassphrase := some "p"
            passphrase := none }
        createKey := .exn "not reached" }).statusWrites =
      [UserStatus.SAFE_DEPLOYED, UserStatus.SETTING_UP, UserStatus.READY] ∧
    allowedTransition UserStatus.READY UserStatus.SAFE_DEPLOYED = false := by
  exact ⟨rfl, by decide⟩

/-- The persisted status writes of deploySafeWallet always form one of
three patterns: nothing (idempotent fast path), DEPLOYING then DEPLOYED
(any success path), or DEPLOYING then the CREATED revert (any terminal
failure) — never ending mid-state. -/
theorem deploySafeWallet_writes (u : WUser) (o : DeployOracle) :
    (deploySafeWallet u o).statusWrites = [] ∨
    (deploySafeWallet u o).statusWrites =
      [UserStatus.SAFE_DEPLOYING, UserStatus.SAFE_DEPLOYED] ∨
    (deploySafeWallet u o).statusWrites =
      [UserStatus.SAFE_DEPLOYING, UserStatus.CREATED] := by
  unfold deploySafeWallet
  rcases (if u.safeDeployed then truthyVal u.safeAddress else none)
    with _ | addr
  · dsimp only
    split_ifs with hb
    · have H := deployCatch_writes o
        "Builder credentials not configured - required for gasless Safe deployment"
        (deployStartState u)
      rcases hd : deployCatch o
          "Builder credentials not configured - required for gasless Safe deployment"
          (deployStartState u) with ⟨a2, st2⟩ | ⟨m2, st2⟩ <;>
        rw [hd] at H <;> dsimp only at H ⊢
      · right; left; simpa [deployStartState] using H
      · right; right; simpa [deployStartState] using H
    · have HL := deployLoop_writes o maxRetries 1 none (deployStartState u)
      rcases hl : deployLoop o maxRetries 1 none (deployStartState u)
        with ⟨a2, st2⟩ | ⟨k2, st2⟩ | ⟨m2, st2⟩ <;>
        rw [hl] at HL <;> dsimp only at HL ⊢
      · right; left; simpa [deployStartState] using HL
      · have HA := deployAfterTx_writes o k2 st2
        rcases ha : deployAfterTx o k2 st2 with ⟨a3, st3⟩ | ⟨m3, st3⟩ <;>
          rw [ha] at HA <;> dsimp only at HA ⊢
        · right; left
          rw [HA, HL]
          simp [deployStartState]
        · have HC := deployCatch_writes o m3 st3
          rcases hc : deployCatch o m3 st3 with ⟨a4, st4⟩ | ⟨m4, st4⟩ <;>
            rw [hc] at HC <;> dsimp only at HC ⊢
          · right; left
            rw [HC, HA, HL]
            simp [deployStartState]
          · right; right
            rw [HC, HA, HL]
            simp [deployStartState]
      · have HC := deployCatch_writes o m2 st2
        rcases hc : deployCatch o m2 st2 with ⟨a4, st4⟩ | ⟨m4, st4⟩ <;>
          rw [hc] at HC <;> dsimp only at HC ⊢
        · right; left
          rw [HC, HL]
          simp [deployStartState]
        · right; right
          rw [HC, HL]
          simp [deployStartState]
  · dsimp only
    left
    rfl

/-- The persisted status writes of createApiCredentials always form one
of three patterns: nothing (guard failure), SETTING_UP then READY
(success), or SETTING_UP then the SAFE_DEPLOYED revert (failure) — never
ending mid-state. -/
theorem createApiCredentials_writes (u : WUser) (co : CredOracle) :
    (createApiCredentials u co).statusWrites = [] ∨
    (createApiCredentials u co).statusWrites =
      [UserStatus.SETTING_UP, UserStatus.READY] ∨
    (createApiCredentials u co).statusWrites =
      [UserStatus.SETTING_UP, UserStatus.SAFE_DEPLOYED] := by
  unfold createApiCredentials
  rcases truthyVal u.safeAddress with _ | a <;> dsimp only
  · left; rfl
  · rcases obtainCredentials co with _ | c <;> dsimp only
    · right; right; rfl
    · right; left; rfl

/-- C6 as amended: deploy writes statuses only in the patterns
[] / [DEPLOYING, DEPLOYED] / [DEPLOYING, CREATED], and credential creation
only in [] / [SETTING_UP, READY] / [SETTING_UP, DEPLOYED] — so from their
documented start states every persisted transition is forward or one of
the two failure-revert edges, and after either call returns the status is
never left at DEPLOYING or SETTING_UP; HOWEVER the credential-reset
operation deliberately persists SAFE_DEPLOYED first, regardless of the
current status — an additional backward edge (e.g. READY→DEPLOYED) that
the claim's transition relation does not admit. -/
theorem c6_amended (u : WUser) (o : DeployOracle) (co : CredOracle) :
    ((deploySafeWallet u o).statusWrites = [] ∨
     (deploySafeWallet u o).statusWrites =
       [UserStatus.SAFE_DEPLOYING, UserStatus.SAFE_DEPLOYED] ∨
     (deploySafeWallet u o).statusWrites =
       [UserStatus.SAFE_DEPLOYING, UserStatus.CREATED]) ∧
    ((createApiCredentials u co).statusWrites = [] ∨
     (createApiCredentials u co).statusWrites =
       [UserStatus.SETTING_UP, UserStatus.READY] ∨
     (createApiCredentials u co).statusWrites =
       [UserStatus.SETTING_UP, UserStatus.SAFE_DEPLOYED]) ∧
    (∀ s, ((deploySafeWallet u o).statusWrites.getLast? = some s ∨
        (createApiCredentials u co).statusWrites.getLast? = some s) →
      s ≠ UserStatus.SAFE_DEPLOYING ∧ s ≠ UserStatus.SETTING_UP) ∧
    ((resetApiCredentials u co).statusWrites = [] ∨
     (resetApiCredentials u co).statusWrites.head? =
       some UserStatus.SAFE_DEPLOYED) := by
  refine ⟨deploySafeWallet_writes u o, createApiCredentials_writes u co,
    ?_, ?_⟩
  · intro s hs
    rcases hs with hs | hs
    · rcases deploySafeWallet_writes u o with h | h | h <;>
        rw [h] at hs <;> simp at hs <;> simp [← hs]
    · rcases createApiCredentials_writes u co with h | h | h <;>
        rw [h] at hs <;> simp at hs <;> simp [← hs]
  · unfold resetApiCredentials
    rcases truthyVal u.safeAddress with _ | a <;> dsimp only
    · left; rfl
    · right; rfl

/-- C7: deploy on an account whose record already has the deployment flag
and a stored contract-account address returns the cached address, submits
nothing to the relay, performs no status write, leaves the record
unchanged, and a second sequential deploy call returns the same
address. -/
theorem c7_deploy_idempotent (u : WUser) (o o2 : DeployOracle) (a : String)
    (h1 : u.safeDeployed = true) (h2 : u.safeAddress = some a)
    (h3 : a ≠ "") :
    (deploySafeWallet u o).outcome = .ok a ∧
    (deploySafeWallet u o).deployCalls = 0 ∧
    (deploySafeWallet u o).user = u ∧
    (deploySafeWallet u o).statusWrites = [] ∧
    (deploySafeWallet u o).waits = [] ∧
    (deploySafeWallet (deploySafeWallet u o).user o2).outcome = .ok a := by
  have hfast : (if u.safeDeployed then truthyVal u.safeAddress else none) =
      some a := by
    rw [h1, if_pos rfl, h2]
    simp [truthyVal, jsTruthy, h3]
  unfold deploySafeWallet
  simp only [hfast]
  simp [hfast]

/-- Witness for C7: a deployed account with address 0xS under an
arbitrary oracle. -/
theorem c7_deploy_idempotent_witness :
    (deploySafeWallet
      { status := .SAFE_DEPLOYED, safeAddress := some "0xS"
        safeDeployed := true, hasApiCredentials := false }
      { builderConfigured := true
        attemptOutcome := fun _ => .exn "network error"
        recoveryDeploy := .exn "network error"
        getCode := fun _ _ => false, predicted := none
        poll := .res none }).outcome = .ok "0xS" ∧
    (deploySafeWallet
      { status := .SAFE_DEPLOYED, safeAddress := some "0xS"
        safeDeployed := true, hasApiCredentials := false }
      { builderConfigured := true
        attemptOutcome := fun _ => .exn "network error"
        recoveryDeploy := .exn "network error"
        getCode := fun _ _ => false, predicted := none
        poll := .res none }).deployCalls = 0 ∧
    (deploySafeWallet
      { status := .SAFE_DEPLOYED, safeAddress := some "0xS"
        safeDeployed := true, hasApiCredentials := false }
      { builderConfigured := true
        attemptOutcome := fun _ => .exn "network error"
        recoveryDeploy := .exn "network error"
        getCode := fun _ _ => false, predicted := none
        poll := .res none }).user =
      { status := .SAFE_DEPLOYED, safeAddress := some "0xS"
        safeDeployed := true, hasApiCredentials := false } ∧
    (deploySafeWallet
      { status := .SAFE_DEPLOYED, safeAddress := some "0xS"
        safeDeployed := true, hasApiCredentials := false }
      { builderConfigured := true
        attemptOutcome := fun _ => .exn "network error"
        recoveryDeploy := .exn "network error"
        getCode := fun _ _ => false, predicted := none
        poll := .res none }).statusWrites = [] ∧
    (deploySafeWallet
      { status := .SAFE_DEPLOYED, safeAddress := some "0xS"
        safeDeployed := true, hasApiCredentials := false }
      { builderConfigured := true
        attemptOutcome := fun _ => .exn "network error"
        recoveryDeploy := .exn "network error"
        getCode := fun _ _ => false, predicted := none
        poll := .res none }).waits = [] ∧
    (deploySafeWallet
      (deploySafeWallet
        { status := .SAFE_DEPLOYED, safeAddress := some "0xS"
          safeDeployed := true, hasApiCredentials := false }
        { builderConfigured := true
          attemptOutcome := fun _ => .exn "network error"
          recoveryDeploy := .exn "network error"
          getCode := fun _ _ => false, predicted := none
          poll := .res none }).user
      { builderConfigured := true
        attemptOutcome := fun _ => .exn "network error"
        recoveryDeploy := .exn "network error"
        getCode := fun _ _ => false, predicted := none
        poll := .res none }).outcome = .ok "0xS" :=
  c7_deploy_idempotent
    { status := .SAFE_DEPLOYED, safeAddress := some "0xS"
      safeDeployed := true, hasApiCredentials := false }
    { builderConfigured := true
      attemptOutcome := fun _ => .exn "network error"
      recoveryDeploy := .exn "network error"
      getCode := fun _ _ => false, predicted := none
      poll := .res none }
    { builderConfigured := true
      attemptOutcome := fun _ => .exn "network error"
      recoveryDeploy := .exn "network error"
      getCode := fun _ _ => false, predicted := none
      poll := .res none }
    "0xS" rfl rfl (by decide)

/-- C8 counterexample: the secret "ab" decodes from base64 (to the byte
105) but re-encodes to "aQ==" ≠ "ab", failing the round-trip check — yet
createApiCredentials only logs a warning: the credentials are persisted,
the status is set READY and the call succeeds, refuting the claim that a
round-trip failure aborts with a corrupted-credentials error and persists
nothing. -/
theorem c8_counterexample :
    b64Encode (nodeB64Decode "ab") ≠ "ab" ∧
    (createApiCredentials
      { status := .SAFE_DEPLOYED, safeAddress := some "0xS"
        safeDeployed := true, hasApiCredentials := false }
      { deriveKey := .exn "Could not derive api key"
        createKey := .resp
          { apiKey := some "k", key := none, apiSecret := some "ab"
            secret := none, apiPassphrase := some "p"
            passphrase := none } }).roundTripWarned = true ∧
    (createApiCredentials
      { status := .SAFE_DEPLOYED, safeAddress := some "0xS"
        safeDeployed := true, hasApiCredentials := false }
      { deriveKey := .exn "Could not derive api key"
        createKey := .resp
          { apiKey := some "k", key := none, apiSecret := some "ab"
            secret := none, apiPassphrase := some "p"
            passphrase := none } }).outcome = .ok () ∧
    (createApiCredentials
      { status := .SAFE_DEPLOYED, safeAddress := some "0xS"
        safeDeployed := true, hasApiCredentials := false }
      { deriveKey := .exn "Could not derive api key"
        createKey := .resp
          { apiKey := some "k", key := none, apiSecret := some "ab"
            secret := none, apiPassphrase := some "p"
            passphrase := none } }).user.hasApiCredentials = true ∧
    (createApiCredentials
      { status := .SAFE_DEPLOYED, safeAddress := some "0xS"
        safeDeployed := true, hasApiCredentials := false }
      { deriveKey := .exn "Could not derive api key"
        createKey := .resp
          { apiKey := some "k", key := none, apiSecret := some "ab"
            secret := none, apiPassphrase := some "p"
            passphrase := none } }).user.status = UserStatus.READY := by
  exact ⟨by decide, rfl, rfl, rfl, rfl⟩

/-- C8 as amended: before persisting, the returned secret is decoded from
base64 — a decode failure would abort with a distinct invalid-base64 error
(though the Node decoder in fact never throws) — and its re-encoding is
compared with the original, but a round-trip mismatch only logs a
warning: whenever credentials with truthy fields are obtained, they are
persisted and the call succeeds and marks the account READY, whether or
not the round-trip check passed. -/
theorem c8_roundtrip_warn_only (u : WUser) (co : CredOracle) (a : String)
    (c : String × String × String)
    (h1 : u.safeAddress = some a) (h2 : a ≠ "")
    (h3 : obtainCredentials co = some c) :
    (createApiCredentials u co).outcome = .ok () ∧
    (createApiCredentials u co).user.hasApiCredentials = true ∧
    (createApiCredentials u co).user.status = UserStatus.READY ∧
    (createApiCredentials u co).roundTripWarned =
      !(b64Encode (nodeB64Decode c.2.1) == c.2.1) ∧
    (createApiCredentials u co).statusWrites =
      [UserStatus.SETTING_UP, UserStatus.READY] := by
  have ht : truthyVal u.safeAddress = some a := by
    rw [h1]
    simp [truthyVal, jsTruthy, h2]
  unfold createApiCredentials
  simp only [ht, h3]
  exact ⟨rfl, rfl, rfl, rfl, rfl⟩

/-- Witness for C8 as amended: applied to the round-trip-failing secret
"ab"; the credentials are persisted and the call succeeds with the
round-trip warning raised. -/
theorem c8_roundtrip_warn_only_witness :
    (createApiCredentials
      { status := .SAFE_DEPLOYED, safeAddress := some "0xS"
        safeDeployed := true, hasApiCredentials := false }
      { deriveKey := .exn "Could not derive api key"
        createKey := .resp
          { apiKey := some "k", key := none, apiSecret := some "ab"
            secret := none, apiPassphrase := some "p"
            passphrase := none } }).outcome = .ok () ∧
    (createApiCredentials
      { status := .SAFE_DEPLOYED, safeAddress := some "0xS"
        safeDeployed := true, hasApiCredentials := false }
      { deriveKey := .exn "Could not derive api key"
        createKey := .resp
          { apiKey := some "k", key := none, apiSecret := some "ab"
            secret := none, apiPassphrase := some "p"
            passphrase := none } }).user.hasApiCredentials = true ∧
    (createApiCredentials
      { status := .SAFE_DEPLOYED, safeAddress := some "0xS"
        safeDeployed := true, hasApiCredentials := false }
      { deriveKey := .exn "Could not derive api key"
        createKey := .resp
          { apiKey := some "k", key := none, apiSecret := some "ab"
            secret := none, apiPassphrase := some "p"
            passphrase := none } }).user.status = UserStatus.READY ∧
    (createApiCredentials
      { status := .SAFE_DEPLOYED, safeAddress := some "0xS"
        safeDeployed := true, hasApiCredentials := false }
      { deriveKey := .exn "Could not derive api key"
        createKey := .resp
          { apiKey := some "k", key := none, apiSecret := some "ab"
            secret := none, apiPassphrase := some "p"
            passphrase := none } }).roundTripWarned =
      !(b64Encode (nodeB64Decode "ab") == "ab") ∧
    (createApiCredentials
      { status := .SAFE_DEPLOYED, safeAddress := some "0xS"
        safeDeployed := true, hasApiCredentials := false }
      { deriveKey := .exn "Could not derive api key"
        createKey := .resp
          { apiKey := some "k", key := none, apiSecret := some "ab"
            secret := none, apiPassphrase := some "p"
            passphrase := none } }).statusWrites =
      [UserStatus.SETTING_UP, UserStatus.READY] :=
  c8_roundtrip_warn_only
    { status := .SAFE_DEPLOYED, safeAddress := some "0xS"
      safeDeployed := true, hasApiCredentials := false }
    { deriveKey := .exn "Could not derive api key"
      createKey := .resp
        { apiKey := some "k", key := none, apiSecret := some "ab"
          secret := none, apiPassphrase := some "p"
          passphrase := none } }
    "0xS" ("k", "ab", "p") rfl (by decide) rfl

/-- C9: when every deployment submission attempt fails with a transient
error (no address recoverable from the error text, none predicted, no
already-deployed condition), the operation makes exactly maxRetries = 3
relayer submissions, waits between consecutive attempts 2000 ms then
4000 ms — of the exponential form 1000 × 2^attempt for the attempts
1 and 2 that precede a retry (the code computes attempt × 2000, which
coincides on every realized wait) — and then escalates the last error to
the caller. -/
theorem c9_retry_backoff (u : WUser) (o : DeployOracle) (m : Nat → String)
    (hfast : u.safeDeployed = false)
    (hb : o.builderConfigured = true)
    (hatt : ∀ a, o.attemptOutcome a = .exn (m a))
    (haddr : ∀ a, extractEthAddress (m a) = none)
    (hpred : o.predicted = none)
    (had : alreadyDeployedErr (m 3) = false) :
    (deploySafeWallet u o).deployCalls = maxRetries ∧
    maxRetries = 3 ∧
    (deploySafeWallet u o).waits = [1 * 2000, 2 * 2000] ∧
    (deploySafeWallet u o).waits = [1000 * 2 ^ 1, 1000 * 2 ^ 2] ∧
    (deploySafeWallet u o).outcome = .error (m 3) := by
  have hstep : ∀ (f a : Nat) (st : DeployState), a < maxRetries →
      deployLoop o (f + 1) a none st =
        deployLoop o f (a + 1) none
          (noteWait (noteDeployCall st) (a * 2000)) := by
    intro f a st ha
    simp [deployLoop, loopTry, hatt a, loopCatch, haddr a, hpred,
      loopCatchContinue, jsOrStr, jsTruthy, ha]
  have hlast : ∀ (st : DeployState),
      deployLoop o 1 3 none st = .failed (m 3) (noteDeployCall st) := by
    intro st
    have h3 : ¬ (3 < maxRetries) := by simp [maxRetries]
    simp [deployLoop, loopTry, hatt 3, loopCatch, haddr 3, hpred,
      loopCatchContinue, jsOrStr, jsTruthy, h3]
  have hL : deployLoop o maxRetries 1 none (deployStartState u) =
      .failed (m 3)
        (noteDeployCall (noteWait (noteDeployCall (noteWait
          (noteDeployCall (deployStartState u)) (1 * 2000))) (2 * 2000))) := by
    rw [show maxRetries = 2 + 1 from rfl,
      hstep 2 1 (deployStartState u) (by simp [maxRetries]),
      show (2 : Nat) = 1 + 1 from rfl,
      hstep 1 2 _ (by simp [maxRetries]), hlast]
  have hcatch : ∀ (st : DeployState),
      deployCatch o (m 3) st = .err (m 3) (writeStatus st .CREATED) := by
    intro st
    unfold deployCatch deployRevert
    rw [if_neg (by simp [had])]
  have hmain : (if u.safeDeployed then truthyVal u.safeAddress else none) =
      none := by
    rw [hfast]
    rfl
  unfold deploySafeWallet
  simp only [hmain]
  rw [if_neg (by simp [hb])]
  rw [hL]
  dsimp only
  rw [hcatch]
  refine ⟨?_, rfl, ?_, ?_, rfl⟩ <;>
    simp [noteDeployCall, noteWait, writeStatus, deployStartState,
      maxRetries]

/-- Witness for C9: a fresh account whose three deployment attempts all
fail with a plain network error: 3 submissions, waits 2000 and 4000 ms,
and the final error escalated. -/
theorem c9_retry_backoff_witness :
    (deploySafeWallet
      { status := .CREATED, safeAddress := none, safeDeployed := false
        hasApiCredentials := false }
      { builderConfigured := true
        attemptOutcome := fun _ => .exn "network error"
        recoveryDeploy := .exn "network error"
        getCode := fun _ _ => false, predicted := none
        poll := .res none }).deployCalls = maxRetries ∧
    maxRetries = 3 ∧
    (deploySafeWallet
      { status := .CREATED, safeAddress := none, safeDeployed := false
        hasApiCredentials := false }
      { builderConfigured := true
        attemptOutcome := fun _ => .exn "network error"
        recoveryDeploy := .exn "network error"
        getCode := fun _ _ => false, predicted := none
        poll := .res none }).waits = [1 * 2000, 2 * 2000] ∧
    (deploySafeWallet
      { status := .CREATED, safeAddress := none, safeDeployed := false
        hasApiCredentials := false }
      { builderConfigured := true
        attemptOutcome := fun _ => .exn "network error"
        recoveryDeploy := .exn "network error"
        getCode := fun _ _ => false, predicted := none
        poll := .res none }).waits = [1000 * 2 ^ 1, 1000 * 2 ^ 2] ∧
    (deploySafeWallet
      { status := .CREATED, safeAddress := none, safeDeployed := false
        hasApiCredentials := false }
      { builderConfigured := true
        attemptOutcome := fun _ => .exn "network error"
        recoveryDeploy := .exn "network error"
        getCode := fun _ _ => false, predicted := none
        poll := .res none }).outcome = .error "network error" :=
  c9_retry_backoff
    { status := .CREATED, safeAddress := none, safeDeployed := false
      hasApiCredentials := false }
    { builderConfigured := true
      attemptOutcome := fun _ => .exn "network error"
      recoveryDeploy := .exn "network error"
      getCode := fun _ _ => false, predicted := none
      poll := .res none }
    (fun _ => "network error") rfl rfl (fun _ => rfl) (fun _ => rfl)
    rfl (by decide)

end PolymarketMCP
